import Mathlib

namespace PyModel

/-- Floor of a rational, computed directly from numerator and denominator
(kernel-friendly); equals Int.floor by Rat.floor_def. -/
def qfloor (q : ℚ) : ℤ := q.num / q.den

/-- Round-half-to-even on rationals, mirroring what CPython does when it
formats or rounds a binary float whose value is this rational. -/
def roundHalfEven (q : ℚ) : ℤ :=
  let n := qfloor q
  let f := q - (n : ℚ)
  if f < 1/2 then n
  else if (1 : ℚ)/2 < f then n + 1
  else if n % 2 = 0 then n else n + 1

/-- Two-digit zero padding for the fractional part of a fixed-point rendering. -/
def pad2 (m : ℕ) : String := if m < 10 then "0" ++ toString m else toString m

/-- Fixed-point rendering of an integer number of hundredths. -/
def fmtFix2 (n : ℤ) : String :=
  (if n < 0 then "-" else "") ++ toString (n.natAbs / 100) ++ "." ++ pad2 (n.natAbs % 100)

/-- Fixed-point rendering of an integer number of tenths. -/
def fmtFix1 (n : ℤ) : String :=
  (if n < 0 then "-" else "") ++ toString (n.natAbs / 10) ++ "." ++ toString (n.natAbs % 10)

/-- Rendering of a rational with exactly two decimal digits, as Python's
format spec .2f does for a float of this exact value. -/
def format2 (q : ℚ) : String := fmtFix2 (roundHalfEven (q * 100))

/-- Rendering of a rational with exactly one decimal digit, as Python's
format spec .1f does. -/
def format1 (q : ℚ) : String := fmtFix1 (roundHalfEven (q * 10))

/-- A JSON-like Python runtime value.  Python ints and floats are kept
apart because they print differently; float arithmetic is modelled by
exact rationals (all arithmetic performed by the tools is exact in
binary floating point for realistic inputs). -/
inductive PVal where
  | null
  | boolean (b : Bool)
  | int (n : ℤ)
  | num (q : ℚ)
  | str (s : String)
  | list (xs : List PVal)
  | dict (kvs : List (String × PVal))

/-- Result of a Python expression: either a value or an uncaught exception,
carried as a message string prefixed with the exception class name. -/
abbrev Py (α : Type) := Except String α

/-- First-match association-list lookup (JSON objects are assumed to have
distinct keys). -/
def lookupKV : List (String × PVal) → String → Option PVal
  | [], _ => Option.none
  | (k, v) :: rest, key => if k == key then some v else lookupKV rest key

/-- Python d[k] on a mapping: KeyError when absent, TypeError on a non-dict. -/
def pyIdx : PVal → String → Py PVal
  | PVal.dict kvs, k =>
    match lookupKV kvs k with
    | some v => Except.ok v
    | Option.none => Except.error ("KeyError: " ++ k)
  | _, k => Except.error ("TypeError: value is not subscriptable by key " ++ k)

/-- Python xs[i] on a list: IndexError when out of range. -/
def pyAt : PVal → ℕ → Py PVal
  | PVal.list xs, i =>
    match xs.get? i with
    | some v => Except.ok v
    | Option.none => Except.error "IndexError: list index out of range"
  | _, _ => Except.error "TypeError: value is not subscriptable by index"

/-- Python d.get(k, default): AttributeError on a non-dict. -/
def pyGet (v : PVal) (k : String) (d : PVal) : Py PVal :=
  match v with
  | PVal.dict kvs => Except.ok ((lookupKV kvs k).getD d)
  | _ => Except.error "AttributeError: object has no attribute get"

/-- Python d.get(k) with the implicit None default. -/
def pyGetN (v : PVal) (k : String) : Py PVal := pyGet v k PVal.null

/-- Substring occurrence over character lists (computable in the kernel). -/
def listIncl : List Char → List Char → Bool
  | [], p => p.isEmpty
  | c :: rest, p => p.isPrefixOf (c :: rest) || listIncl rest p

/-- Substring test, Python `pat in s` for strings. -/
def strIncludes (s pat : String) : Bool := listIncl s.data pat.data

/-- Python `k in v` (keys of a dict, elements of a list, substring of a str). -/
def pyInKey (v : PVal) (k : String) : Py Bool :=
  match v with
  | PVal.dict kvs => Except.ok (kvs.any (fun p => p.1 == k))
  | PVal.list xs => Except.ok (xs.any (fun x => match x with | PVal.str s => s == k | _ => false))
  | PVal.str s => Except.ok (strIncludes s k)
  | _ => Except.error "TypeError: argument is not iterable"

/-- Python truthiness of a value. -/
def truthy : PVal → Bool
  | PVal.null => false
  | PVal.boolean b => b
  | PVal.int n => n != 0
  | PVal.num q => q != 0
  | PVal.str s => s != ""
  | PVal.list xs => !xs.isEmpty
  | PVal.dict kvs => !kvs.isEmpty

def asList : PVal → Py (List PVal)
  | PVal.list xs => Except.ok xs
  | _ => Except.error "TypeError: value is not a list"

def asStr : PVal → Py String
  | PVal.str s => Except.ok s
  | _ => Except.error "TypeError: value is not a str"

/-- Numeric coercion used where Python would apply arithmetic/comparisons. -/
def toQ : PVal → Py ℚ
  | PVal.int n => Except.ok (n : ℚ)
  | PVal.num q => Except.ok q
  | PVal.boolean b => Except.ok (if b then 1 else 0)
  | _ => Except.error "TypeError: value is not a number"

/-- Integer coercion for values the remote API documents as integers. -/
def toZ : PVal → Py ℤ
  | PVal.int n => Except.ok n
  | PVal.boolean b => Except.ok (if b then 1 else 0)
  | _ => Except.error "TypeError: value is not an int"

/-- Python `v > 0` on a JSON value. -/
def pyGtZero (v : PVal) : Py Bool := do
  let q ← toQ v
  pure (0 < q)

/-- Decimal rendering of an exact rational float (only exercised on values
with denominator dividing 100, which is all the tools ever print). -/
def decimalRepr (q : ℚ) : String :=
  if q.den = 1 then toString q.num ++ ".0"
  else if 10 % q.den = 0 then fmtFix1 (q.num * (10 / (q.den : ℤ)))
  else if 100 % q.den = 0 then fmtFix2 (q.num * (100 / (q.den : ℤ)))
  else toString q.num ++ "/" ++ toString q.den

/-- Python str()/f-string conversion of a value. -/
def pyStr : PVal → String
  | PVal.null => "None"
  | PVal.boolean b => if b then "True" else "False"
  | PVal.int n => toString n
  | PVal.num q => decimalRepr q
  | PVal.str s => s
  | PVal.list _ => "[...]"
  | PVal.dict _ => "\x7b...\x7d"

/-- Python round(x) with no digits: returns an int, banker's rounding. -/
def pyRound0 : PVal → Py PVal
  | PVal.int n => Except.ok (PVal.int n)
  | PVal.num q => Except.ok (PVal.int (roundHalfEven q))
  | PVal.boolean b => Except.ok (PVal.int (if b then 1 else 0))
  | _ => Except.error "TypeError: value is not a number"

/-- Python round(x, 1): ints pass through, floats keep one decimal. -/
def pyRound1 : PVal → Py PVal
  | PVal.int n => Except.ok (PVal.int n)
  | PVal.num q => Except.ok (PVal.num ((roundHalfEven (q * 10) : ℚ) / 10))
  | PVal.boolean b => Except.ok (PVal.int (if b then 1 else 0))
  | _ => Except.error "TypeError: value is not a number"

/-- Python round(x, 2): ints pass through, floats keep two decimals. -/
def pyRound2 : PVal → Py PVal
  | PVal.int n => Except.ok (PVal.int n)
  | PVal.num q => Except.ok (PVal.num ((roundHalfEven (q * 100) : ℚ) / 100))
  | PVal.boolean b => Except.ok (PVal.int (if b then 1 else 0))
  | _ => Except.error "TypeError: value is not a number"

/-- Replace a key in an association list, or append it at the end —
the semantics of a single Python dict key assignment. -/
def updateKV (kvs : List (String × PVal)) (k : String) (v : PVal) : List (String × PVal) :=
  if kvs.any (fun p => p.1 == k) then
    kvs.map (fun p => if p.1 == k then (k, v) else p)
  else kvs ++ [(k, v)]

/-- Python d[k] = v on a dict value. -/
def pySet (d : PVal) (k : String) (v : PVal) : Py PVal :=
  match d with
  | PVal.dict kvs => Except.ok (PVal.dict (updateKV kvs k v))
  | _ => Except.error "TypeError: value does not support item assignment"

/-- Python d.update(new) on a dict value. -/
def pyUpdate (d : PVal) (new : List (String × PVal)) : Py PVal :=
  match d with
  | PVal.dict kvs => Except.ok (PVal.dict (new.foldl (fun acc p => updateKV acc p.1 p.2) kvs))
  | _ => Except.error "AttributeError: object has no attribute update"

/-- Python `v == s` against a string literal. -/
def pyEqStr (v : PVal) (s : String) : Bool :=
  match v with
  | PVal.str t => t == s
  | _ => false

/-- Python `v == n` against an integer literal (1 == 1.0 is True, and
True == 1 is True). -/
def pyEqInt (v : PVal) (n : ℤ) : Bool :=
  match v with
  | PVal.int m => m == n
  | PVal.num q => q == (n : ℚ)
  | PVal.boolean b => (if b then (1 : ℤ) else 0) == n
  | _ => false

/-- Python optional-string truthiness (None and the empty string are falsy). -/
def optTruthy : Option String → Bool
  | Option.none => false
  | some s => s != ""

/-- f-string rendering of an Optional[str]. -/
def optStr : Option String → String
  | Option.none => "None"
  | some s => s

/-- Python `a or b` for an optional string a and string b. -/
def pyOrStr (a : Option String) (b : String) : String :=
  if optTruthy a then a.getD "" else b

end PyModel

namespace WeatherWeaver

open PyModel

/-- Outcome of one requests.get call: either the library raised a
RequestException (connection error, timeout, ...) or a response came back
with a status code and a parsed JSON body. -/
inductive HttpResp where
  | raised (msg : String)
  | resp (status : ℕ) (body : PVal)

/-- Result type of fetch_weather_data: parsed data or an error string. -/
inductive WFetch where
  | data (v : PVal)
  | errStr (s : String)

/-- Prefix test on strings by character list (computable in the kernel). -/
def strStarts (s p : String) : Bool := p.data.isPrefixOf s.data

/-- True for the exception kinds caught by get_city_info's `except
(KeyError, IndexError)` clause. -/
def isKeyOrIndexErr (e : String) : Bool :=
  strStarts e "KeyError" || strStarts e "IndexError"

/-- Embedding of get_city_info (weatherweaver.py lines 24-38).  Returns the
(latitude, longitude, timezone) triple, or none for the two printed
not-found paths; a raised transport exception propagates.  The second
component collects what the function printed. -/
def get_city_info (r : HttpResp) (city : String) : Py (Option (PVal × PVal × PVal)) × List String :=
  match r with
  | HttpResp.raised m => (Except.error m, [])
  | HttpResp.resp code body =>
    if code == 200 then
      match (do
        let results ← pyIdx body "results"
        let data ← pyAt results 0
        let lat ← pyIdx data "latitude"
        let lng ← pyIdx data "longitude"
        let tz ← pyIdx data "timezone"
        pure (lat, lng, tz) : Py (PVal × PVal × PVal)) with
      | Except.ok t => (Except.ok (some t), [])
      | Except.error e =>
        if isKeyOrIndexErr e then
          (Except.ok Option.none, ["City '" ++ city ++ "' not found"])
        else (Except.error e, [])
    else
      (Except.ok Option.none,
        ["Failed to retrieve data for city '" ++ city ++ "': " ++ toString code])

/-- The wmo_weather_codes table (weatherweaver.py lines 41-70). -/
def wmo_weather_codes : List (String × String) :=
  [("0", "Clear sky"), ("1", "Mainly clear"), ("2", "Partly cloudy"), ("3", "Overcast"),
   ("45", "Foggy"), ("48", "Depositing rime fog"), ("51", "Light drizzle"),
   ("53", "Moderate drizzle"), ("55", "Dense drizzle"), ("56", "Light freezing drizzle"),
   ("57", "Dense freezing drizzle"), ("61", "Slight rain"), ("63", "Moderate rain"),
   ("65", "Heavy rain"), ("66", "Light freezing rain"), ("67", "Heavy freezing rain"),
   ("71", "Slight snow"), ("73", "Moderate snow"), ("75", "Heavy snow"), ("77", "Snow grains"),
   ("80", "Slight rain showers"), ("81", "Moderate rain showers"), ("82", "Violent rain showers"),
   ("85", "Slight snow showers"), ("86", "Heavy snow showers"), ("95", "Thunderstorm"),
   ("96", "Thunderstorm with slight hail"), ("99", "Thunderstorm with heavy hail")]

/-- Python wmo_weather_codes.get(key, "Unknown"). -/
def wmoGet (k : String) : String :=
  match wmo_weather_codes.find? (fun p => p.1 == k) with
  | some p => p.2
  | Option.none => "Unknown"

/-- Embedding of fetch_weather_data (weatherweaver.py lines 73-83).
raise_for_status raises HTTPError (a RequestException) exactly on 4xx/5xx
status codes, which the except clause converts to an error string; a raised
transport exception is converted the same way.  A TypeError from `"error" in
data` on a non-container body would propagate, hence the Py wrapper. -/
def fetch_weather_data (r : HttpResp) : Py WFetch :=
  match r with
  | HttpResp.raised m => Except.ok (WFetch.errStr ("Error fetching weather data: " ++ m))
  | HttpResp.resp code body =>
    if 400 ≤ code then
      Except.ok (WFetch.errStr ("Error fetching weather data: HTTPError: status " ++ toString code))
    else do
      let hasErr ← pyInKey body "error"
      if hasErr then do
        let reason ← pyGet body "reason" (PVal.str "Unknown error")
        pure (WFetch.errStr ("Error fetching weather data: " ++ pyStr reason))
      else pure (WFetch.data body)

/-- One decimal digit read from a character, ValueError otherwise
(strptime's failure mode). -/
def digitVal (c : Char) : Py ℕ :=
  if c.isDigit then Except.ok (c.toNat - 48)
  else Except.error "ValueError: time data does not match format"

/-- Two-digit number at position i of a character list. -/
def parse2at (cs : List Char) (i : ℕ) : Py ℕ :=
  match cs.get? i, cs.get? (i + 1) with
  | some a, some b => do
    let x ← digitVal a
    let y ← digitVal b
    pure (10 * x + y)
  | _, _ => Except.error "ValueError: time data does not match format"

/-- Required literal separator at position i. -/
def expectChar (cs : List Char) (i : ℕ) (c : Char) : Py Unit :=
  if cs.get? i == some c then Except.ok ()
  else Except.error "ValueError: time data does not match format"

/-- Embedding of format_date (weatherweaver.py lines 86-89) at its default
arguments: strptime with "%Y-%m-%dT%H:%M" followed by strftime "%I:%M %p". -/
def format_date (date_str : String) : Py String := do
  let cs := date_str.data
  let _y1 ← parse2at cs 0
  let _y2 ← parse2at cs 2
  expectChar cs 4 '-'
  let mo ← parse2at cs 5
  expectChar cs 7 '-'
  let d ← parse2at cs 8
  expectChar cs 10 'T'
  let h ← parse2at cs 11
  expectChar cs 13 ':'
  let mi ← parse2at cs 14
  if cs.length != 16 || mo < 1 || 12 < mo || d < 1 || 31 < d || 23 < h || 59 < mi then
    Except.error "ValueError: time data does not match format"
  else
    pure (pad2 (if h % 12 == 0 then 12 else h % 12) ++ ":" ++ pad2 mi ++ " " ++
      (if h < 12 then "AM" else "PM"))

/-- Sakamoto's day-of-week algorithm, 0 = Sunday; what datetime.strftime
uses for %a/%A on a Gregorian date. -/
def dayOfWeek (y m d : ℕ) : ℕ :=
  let t := [0, 3, 2, 5, 0, 3, 5, 1, 4, 6, 2, 4]
  let y2 := if m < 3 then y - 1 else y
  (y2 + y2 / 4 - y2 / 100 + y2 / 400 + t.getD (m - 1) 0 + d) % 7

def weekdayAbbrev : ℕ → String
  | 0 => "Sun" | 1 => "Mon" | 2 => "Tue" | 3 => "Wed" | 4 => "Thu" | 5 => "Fri" | 6 => "Sat"
  | _ => ""

def weekdayFull : ℕ → String
  | 0 => "Sunday" | 1 => "Monday" | 2 => "Tuesday" | 3 => "Wednesday" | 4 => "Thursday"
  | 5 => "Friday" | 6 => "Saturday" | _ => ""

def monthAbbrev : ℕ → String
  | 1 => "Jan" | 2 => "Feb" | 3 => "Mar" | 4 => "Apr" | 5 => "May" | 6 => "Jun"
  | 7 => "Jul" | 8 => "Aug" | 9 => "Sep" | 10 => "Oct" | 11 => "Nov" | 12 => "Dec"
  | _ => ""

/-- datetime.fromisoformat on the date-only strings the forecast API returns. -/
def parseIsoDate (s : String) : Py (ℕ × ℕ × ℕ) := do
  let cs := s.data
  let a ← parse2at cs 0
  let b ← parse2at cs 2
  expectChar cs 4 '-'
  let mo ← parse2at cs 5
  expectChar cs 7 '-'
  let d ← parse2at cs 8
  if cs.length != 10 || mo < 1 || 12 < mo || d < 1 || 31 < d then
    Except.error "ValueError: invalid isoformat string"
  else
    pure (100 * a + b, mo, d)

/-- strftime "%a, %b %d". -/
def fmtAbbrevDate (y mo d : ℕ) : String :=
  weekdayAbbrev (dayOfWeek y mo d) ++ ", " ++ monthAbbrev mo ++ " " ++ pad2 d

/-- strftime "%A, %b %d". -/
def fmtFullDate (y mo d : ℕ) : String :=
  weekdayFull (dayOfWeek y mo d) ++ ", " ++ monthAbbrev mo ++ " " ++ pad2 d

/-- The Valves configuration object (weatherweaver.py lines 93-101). -/
structure Valves where
  default_location : String
  unit_system : String

/-- The UserValves configuration object (weatherweaver.py lines 103-111). -/
structure UserValves where
  user_location : Option String
  user_unit_system : Option String

/-- The pydantic defaults of Valves. -/
def defaultValves : Valves := ⟨"Louisville", "imperial"⟩

/-- The pydantic defaults of UserValves. -/
def defaultUserValves : UserValves := ⟨Option.none, Option.none⟩

/-- Embedding of Tools._get_location (weatherweaver.py lines 119-124),
including the DEBUG print it emits. -/
def _get_location (uv : UserValves) (v : Valves) (city : Option String) : String × List String :=
  (if optTruthy city then city.getD "" else pyOrStr uv.user_location v.default_location,
   ["DEBUG: city=" ++ optStr city ++ ", user_location=" ++ optStr uv.user_location ++
    ", default_location=" ++ v.default_location])

/-- The unit-settings dictionary returned by Tools._get_units; its keys are
fixed, so it is embedded as a structure. -/
structure UnitsDict where
  temperature_unit : String
  wind_speed_unit : String
  precipitation_unit : String
  temp_symbol : String
  wind_symbol : String
  precip_symbol : String

/-- Embedding of Tools._get_units (weatherweaver.py lines 126-147). -/
def _get_units (uv : UserValves) (v : Valves) : UnitsDict :=
  if pyOrStr uv.user_unit_system v.unit_system == "metric" then
    ⟨"celsius", "kmh", "mm", "°C", "km/h", "mm"⟩
  else
    ⟨"fahrenheit", "mph", "inch", "°F", "mph", "in"⟩

/-- The params dict built by Tools.get_current_weather (weatherweaver.py
lines 166-175); the unit fields are hard-coded there. -/
def current_weather_params (lat lng tmzone : PVal) : PVal :=
  PVal.dict
    [("latitude", lat), ("longitude", lng),
     ("current", PVal.str "temperature_2m,relative_humidity_2m,apparent_temperature,precipitation,rain,showers,snowfall,weather_code,cloud_cover,pressure_msl,wind_speed_10m,wind_direction_10m,wind_gusts_10m"),
     ("timezone", tmzone),
     ("temperature_unit", PVal.str "fahrenheit"),
     ("wind_speed_unit", PVal.str "mph"),
     ("precipitation_unit", PVal.str "inch"),
     ("forecast_days", PVal.int 1)]

/-- The report assembly of Tools.get_current_weather (weatherweaver.py
lines 181-220), run on the fetched JSON data. -/
def build_current_report (city : String) (data : PVal) : Py String := do
  let current ← pyIdx data "current"
  let _units ← pyIdx data "current_units"
  let timeV ← pyIdx current "time"
  let timeS ← asStr timeV
  let formatted_timestamp ← format_date timeS
  let wcode ← pyIdx current "weather_code"
  let weather_desc := wmoGet (pyStr wcode)
  let tempV ← pyIdx current "temperature_2m"
  let temp ← pyRound0 tempV
  let feelsV ← pyIdx current "apparent_temperature"
  let feels_like ← pyRound0 feelsV
  let humV ← pyIdx current "relative_humidity_2m"
  let humidity ← pyRound0 humV
  let ccV ← pyIdx current "cloud_cover"
  let cloud_cover ← pyRound0 ccV
  let prV ← pyIdx current "pressure_msl"
  let pressure ← pyRound1 prV
  let wsV ← pyIdx current "wind_speed_10m"
  let wind_speed ← pyRound0 wsV
  let wgV ← pyIdx current "wind_gusts_10m"
  let wind_gusts ← pyRound0 wgV
  let tzab ← pyIdx data "timezone_abbreviation"
  let report :=
    "Current weather for " ++ city ++ " as of " ++ formatted_timestamp ++ " " ++ pyStr tzab ++
    ":\n\n**Conditions:** " ++ weather_desc ++
    "\n**Temperature:** " ++ pyStr temp ++ "°F (Feels like " ++ pyStr feels_like ++ "°F)" ++
    "\n**Humidity:** " ++ pyStr humidity ++ "%" ++
    "\n**Cloud Cover:** " ++ pyStr cloud_cover ++ "%" ++
    "\n**Pressure:** " ++ pyStr pressure ++ " hPa" ++
    "\n**Wind:** " ++ pyStr wind_speed ++ " mph, gusts to " ++ pyStr wind_gusts ++ " mph"
  let precip ← pyGet current "precipitation" (PVal.int 0)
  let rain ← pyGet current "rain" (PVal.int 0)
  let showers ← pyGet current "showers" (PVal.int 0)
  let snowfall ← pyGet current "snowfall" (PVal.int 0)
  let anyPrecip ← (do
    let b1 ← pyGtZero precip
    if b1 then pure true else do
    let b2 ← pyGtZero rain
    if b2 then pure true else do
    let b3 ← pyGtZero showers
    if b3 then pure true else pyGtZero snowfall)
  if anyPrecip then do
    let report := report ++ "\n**Precipitation:**"
    let br ← pyGtZero rain
    let report ← if br then do
        let r2 ← pyRound2 rain
        pure (report ++ "\n• Rain: " ++ pyStr r2 ++ " in")
      else pure report
    let bs ← pyGtZero showers
    let report ← if bs then do
        let s2 ← pyRound2 showers
        pure (report ++ "\n• Showers: " ++ pyStr s2 ++ " in")
      else pure report
    let bn ← pyGtZero snowfall
    let report ← if bn then do
        let n2 ← pyRound2 snowfall
        pure (report ++ "\n• Snow: " ++ pyStr n2 ++ " in")
      else pure report
    pure report
  else pure report

/-- Embedding of Tools.get_current_weather (weatherweaver.py lines 149-220).
geo maps the looked-up city to the geocoding response, wx maps the built
params dict to the forecast response.  The first component is the returned
string, or an uncaught exception; the second collects printed lines. -/
def get_current_weather (v : Valves) (uv : UserValves) (geo : String → HttpResp)
    (wx : PVal → HttpResp) (city0 : Option String) : Py String × List String :=
  let loc := _get_location uv v city0
  let city := loc.1
  let logs1 := loc.2
  if city = "" then
    (Except.ok "Please provide a city name or set a default location in settings.", logs1)
  else
    match get_city_info (geo city) city with
    | (Except.error e, logs2) => (Except.error e, logs1 ++ logs2)
    | (Except.ok Option.none, logs2) =>
      (Except.ok ("Could not find city: " ++ city), logs1 ++ logs2)
    | (Except.ok (some info), logs2) =>
      let params := current_weather_params info.1 info.2.1 info.2.2
      ((do
        let fetched ← fetch_weather_data (wx params)
        match fetched with
        | WFetch.errStr s => pure s
        | WFetch.data data => build_current_report city data : Py String), logs1 ++ logs2)

/-- The params dict built by Tools.get_weather_forecast (weatherweaver.py
lines 245-254); these unit fields come from _get_units. -/
def forecast_params (lat lng tmzone : PVal) (units : UnitsDict) (days : ℤ) : PVal :=
  PVal.dict
    [("latitude", lat), ("longitude", lng),
     ("daily", PVal.str "weather_code,temperature_2m_max,temperature_2m_min,sunrise,sunset,uv_index_max,precipitation_sum,precipitation_probability_max,wind_speed_10m_max,wind_gusts_10m_max"),
     ("timezone", tmzone),
     ("temperature_unit", PVal.str units.temperature_unit),
     ("wind_speed_unit", PVal.str units.wind_speed_unit),
     ("precipitation_unit", PVal.str units.precipitation_unit),
     ("forecast_days", PVal.int days)]

/-- One iteration of the forecast rendering loop (weatherweaver.py
lines 268-305). -/
def day_report (daily : PVal) (units : UnitsDict) (i : ℕ) : Py String := do
  let dateL ← pyIdx daily "time"
  let dateV ← pyAt dateL i
  let date ← asStr dateV
  let ymd ← parseIsoDate date
  let date_str :=
    if i == 0 then "**Today** (" ++ fmtAbbrevDate ymd.1 ymd.2.1 ymd.2.2 ++ ")"
    else if i == 1 then "**Tomorrow** (" ++ fmtAbbrevDate ymd.1 ymd.2.1 ymd.2.2 ++ ")"
    else "**" ++ fmtFullDate ymd.1 ymd.2.1 ymd.2.2 ++ "**"
  let wcL ← pyIdx daily "weather_code"
  let wc ← pyAt wcL i
  let weather_desc := wmoGet (pyStr wc)
  let tmaxL ← pyIdx daily "temperature_2m_max"
  let tmaxV ← pyAt tmaxL i
  let temp_max ← pyRound0 tmaxV
  let tminL ← pyIdx daily "temperature_2m_min"
  let tminV ← pyAt tminL i
  let temp_min ← pyRound0 tminV
  let srL ← pyIdx daily "sunrise"
  let srV ← pyAt srL i
  let srS ← asStr srV
  let sunrise ← format_date srS
  let ssL ← pyIdx daily "sunset"
  let ssV ← pyAt ssL i
  let ssS ← asStr ssV
  let sunset ← format_date ssS
  let uvL ← pyIdx daily "uv_index_max"
  let uvV ← pyAt uvL i
  let uv_index ← pyRound1 uvV
  let ppL ← pyIdx daily "precipitation_probability_max"
  let ppV ← pyAt ppL i
  let precip_prob ← pyRound0 ppV
  let psL ← pyIdx daily "precipitation_sum"
  let psV ← pyAt psL i
  let precip_sum ← pyRound2 psV
  let wmL ← pyIdx daily "wind_speed_10m_max"
  let wmV ← pyAt wmL i
  let wind_max ← pyRound0 wmV
  let wgL ← pyIdx daily "wind_gusts_10m_max"
  let wgV ← pyAt wgL i
  let wind_gusts ← pyRound0 wgV
  let base :=
    "\n" ++ date_str ++ "\n" ++
    "• " ++ weather_desc ++ "\n" ++
    "• High: " ++ pyStr temp_max ++ units.temp_symbol ++ " / Low: " ++ pyStr temp_min ++ units.temp_symbol ++ "\n" ++
    "• Sunrise: " ++ sunrise ++ " / Sunset: " ++ sunset ++ "\n" ++
    "• UV Index: " ++ pyStr uv_index ++ "\n" ++
    "• Precipitation: " ++ pyStr precip_prob ++ "% chance"
  let psPos ← pyGtZero precip_sum
  let base := if psPos then
      base ++ " (" ++ pyStr precip_sum ++ " " ++ units.precip_symbol ++ " expected)"
    else base
  pure (base ++ "\n• Wind: Max " ++ pyStr wind_max ++ " " ++ units.wind_symbol ++
    ", gusts to " ++ pyStr wind_gusts ++ " " ++ units.wind_symbol)

/-- The report assembly of Tools.get_weather_forecast (weatherweaver.py
lines 260-306). -/
def build_forecast_report (city : String) (days : ℤ) (units : UnitsDict) (data : PVal) :
    Py String := do
  let daily ← pyIdx data "daily"
  let header := "**" ++ toString days ++ "-Day Weather Forecast for " ++ city ++ "**\n"
  let timesV ← pyIdx daily "time"
  let times ← asList timesV
  let reports ← (List.range times.length).mapM (fun i => day_report daily units i)
  pure (String.intercalate "\n" (header :: reports))

/-- Embedding of Tools.get_weather_forecast (weatherweaver.py lines 222-306). -/
def get_weather_forecast (v : Valves) (uv : UserValves) (geo : String → HttpResp)
    (wx : PVal → HttpResp) (city0 : Option String) (days : ℤ) : Py String × List String :=
  let loc := _get_location uv v city0
  let city := loc.1
  let logs1 := loc.2
  let units := _get_units uv v
  if city = "" then
    (Except.ok "Please provide a city name or set a default location in settings.", logs1)
  else
    let days := max 1 (min 16 days)
    match get_city_info (geo city) city with
    | (Except.error e, logs2) => (Except.error e, logs1 ++ logs2)
    | (Except.ok Option.none, logs2) =>
      (Except.ok ("Could not find city: " ++ city), logs1 ++ logs2)
    | (Except.ok (some info), logs2) =>
      let params := forecast_params info.1 info.2.1 info.2.2 units days
      ((do
        let fetched ← fetch_weather_data (wx params)
        match fetched with
        | WFetch.errStr s => pure s
        | WFetch.data data => build_forecast_report city days units data : Py String),
       logs1 ++ logs2)

end WeatherWeaver

namespace TimeWeaver

open PyModel

/-- The Valves configuration object (timeweaver.py lines 20-24). -/
structure Valves where
  default_timezone : String

/-- The UserValves configuration object (timeweaver.py lines 26-30). -/
structure UserValves where
  user_timezone : Option String

/-- Embedding of Tools._get_timezone (timeweaver.py lines 36-42): the
IANA identifier handed to ZoneInfo. -/
def _get_timezone (uv : UserValves) (v : Valves) : String :=
  pyOrStr uv.user_timezone v.default_timezone

/-- Timezone identifier resolved by Tools.get_current_date (timeweaver.py
lines 50-53); the strftime of the current instant is real-time I/O outside
the model. -/
def get_current_date_zone (uv : UserValves) (v : Valves) (timezone : Option String) : String :=
  if optTruthy timezone then timezone.getD "" else _get_timezone uv v

/-- Timezone identifier resolved by Tools.get_current_time (timeweaver.py
lines 65-68). -/
def get_current_time_zone (uv : UserValves) (v : Valves) (timezone : Option String) : String :=
  if optTruthy timezone then timezone.getD "" else _get_timezone uv v

/-- Timezone identifier resolved by Tools.get_current_datetime
(timeweaver.py lines 82-85). -/
def get_current_datetime_zone (uv : UserValves) (v : Valves) (timezone : Option String) : String :=
  if optTruthy timezone then timezone.getD "" else _get_timezone uv v

end TimeWeaver

namespace ProxmoxWeaver

open PyModel

/-- Embedding of Tools._format_bytes: the scaling loop over the unit names.
The Python loop divides by 1024.0 while the value is not below 1024,
walking the unit list, and falls through to PB. -/
def fb_loop : ℚ → List String → String
  | value, [] => format2 value ++ " PB"
  | value, unit :: units =>
    if value < 1024 then format2 value ++ " " ++ unit
    else fb_loop (value / 1024) units

/-- Embedding of Tools._format_bytes (proxmoxweaver.py lines 66-73). -/
def _format_bytes (bytes_value : ℚ) : String :=
  fb_loop bytes_value ["B", "KB", "MB", "GB", "TB"]

/-- Embedding of Tools._calculate_percentage (proxmoxweaver.py lines 88-92). -/
def _calculate_percentage (used total : ℚ) : ℚ :=
  if total = 0 then 0 else used / total * 100

/-- Embedding of Tools._format_uptime (proxmoxweaver.py lines 75-86).
Python // and % on ints are floor division and sign-of-divisor remainder,
i.e. Int.fdiv and Int.emod. -/
def _format_uptime (seconds : Int) : String :=
  let days := Int.fdiv seconds 86400
  let hours := Int.fdiv (Int.emod seconds 86400) 3600
  let minutes := Int.fdiv (Int.emod seconds 3600) 60
  if days > 0 then toString days ++ "d " ++ toString hours ++ "h " ++ toString minutes ++ "m"
  else if hours > 0 then toString hours ++ "h " ++ toString minutes ++ "m"
  else toString minutes ++ "m"

/-- f-string format spec .2%: percentage with two decimals. -/
def pct2 (q : ℚ) : String := format2 (q * 100) ++ "%"

/-- f-string format spec .1%: percentage with one decimal. -/
def pct1 (q : ℚ) : String := format1 (q * 100) ++ "%"

/-- The proxmoxer API surface the tool touches, one field per endpoint.
Each call either returns parsed JSON or raises.  Node and vmid path
arguments are passed as the Python values the tool supplies. -/
structure ProxApi where
  nodes_get : Py PVal
  node_qemu_get : PVal → Py PVal
  node_lxc_get : PVal → Py PVal
  qemu_status_current : PVal → PVal → Py PVal
  lxc_status_current : PVal → PVal → Py PVal
  qemu_config_get : PVal → PVal → Py PVal
  lxc_config_get : PVal → PVal → Py PVal
  qemu_snapshot_get : PVal → PVal → Py PVal
  lxc_snapshot_get : PVal → PVal → Py PVal
  qemu_agent_get : PVal → PVal → String → Py PVal
  qemu_fw_options : PVal → PVal → Py PVal
  qemu_fw_rules : PVal → PVal → Py PVal
  node_fw_options : PVal → Py PVal
  node_fw_rules : PVal → Py PVal
  node_status_get : PVal → Py PVal
  node_storage_get : PVal → Py PVal
  node_storage_status : PVal → PVal → Py PVal
  node_storage_content : PVal → PVal → Py PVal
  node_tasks_get : PVal → ℤ → Py PVal
  cluster_status_get : Py PVal
  cluster_resources_get : String → Py PVal
  cluster_log_get : ℤ → Py PVal
  storage_get : Py PVal
  storage_item_get : PVal → Py PVal
  access_users_get : Py PVal
  access_groups_get : Py PVal
  access_roles_get : Py PVal
  version_get : Py PVal

/-- A transport against an unreachable or malformed host: every call
raises with the library's message. -/
def allRaise (msg : String) : ProxApi where
  nodes_get := Except.error msg
  node_qemu_get := fun _ => Except.error msg
  node_lxc_get := fun _ => Except.error msg
  qemu_status_current := fun _ _ => Except.error msg
  lxc_status_current := fun _ _ => Except.error msg
  qemu_config_get := fun _ _ => Except.error msg
  lxc_config_get := fun _ _ => Except.error msg
  qemu_snapshot_get := fun _ _ => Except.error msg
  lxc_snapshot_get := fun _ _ => Except.error msg
  qemu_agent_get := fun _ _ _ => Except.error msg
  qemu_fw_options := fun _ _ => Except.error msg
  qemu_fw_rules := fun _ _ => Except.error msg
  node_fw_options := fun _ => Except.error msg
  node_fw_rules := fun _ => Except.error msg
  node_status_get := fun _ => Except.error msg
  node_storage_get := fun _ => Except.error msg
  node_storage_status := fun _ _ => Except.error msg
  node_storage_content := fun _ _ => Except.error msg
  node_tasks_get := fun _ _ => Except.error msg
  cluster_status_get := Except.error msg
  cluster_resources_get := fun _ => Except.error msg
  cluster_log_get := fun _ => Except.error msg
  storage_get := Except.error msg
  storage_item_get := fun _ => Except.error msg
  access_users_get := Except.error msg
  access_groups_get := Except.error msg
  access_roles_get := Except.error msg
  version_get := Except.error msg

/-- Timestamp rendering is local-timezone dependent C library work,
supplied as environment functions. -/
structure PyEnv where
  fmt_datetime : ℚ → String
  fmt_date : ℚ → String

/-- The error mapping every Proxmox façade method returns. -/
def errDict (e : String) : PVal := PVal.dict [("error", PVal.str e)]

/-- The single-element error list some façade methods return. -/
def errList (e : String) : PVal := PVal.list [PVal.dict [("error", PVal.str e)]]

/-- A Python try/except Exception block returning a value. -/
def pyTry (body : Py PVal) (handler : String → PVal) : PVal :=
  match body with
  | Except.ok v => v
  | Except.error e => handler e

/-- The detailed per-VM dictionary of list_all_vms (lines 116-131). -/
def vm_entry_detailed (node_name : PVal) (vm status : PVal) : Py PVal := do
  let vmid ← pyIdx vm "vmid"
  let name ← pyGet vm "name" (PVal.str "unnamed")
  let st ← pyIdx vm "status"
  let hasCpu ← pyInKey vm "cpu"
  let cpu ← if hasCpu then do
      let c ← pyGet vm "cpu" (PVal.int 0)
      let q ← toQ c
      pure (pct2 q)
    else pure "0%"
  let mem ← pyGet vm "mem" (PVal.int 0)
  let memQ ← toQ mem
  let maxmem ← pyGet vm "maxmem" (PVal.int 0)
  let maxmemQ ← toQ maxmem
  let mem2 ← pyGet vm "mem" (PVal.int 0)
  let mem2Q ← toQ mem2
  let maxmem1 ← pyGet vm "maxmem" (PVal.int 1)
  let maxmem1Q ← toQ maxmem1
  let disk ← pyGet vm "disk" (PVal.int 0)
  let diskQ ← toQ disk
  let maxdisk ← pyGet vm "maxdisk" (PVal.int 0)
  let maxdiskQ ← toQ maxdisk
  let upt ← pyGetN vm "uptime"
  let uptime ← if truthy upt then do
      let u ← pyGet vm "uptime" (PVal.int 0)
      let uz ← toZ u
      pure (_format_uptime uz)
    else pure "stopped"
  let cpus ← pyGet status "cpus" (PVal.int 1)
  let pid ← pyGet vm "pid" (PVal.str "N/A")
  pure (PVal.dict
    [("vmid", vmid), ("name", name), ("node", node_name), ("status", st),
     ("cpu", PVal.str cpu), ("memory", PVal.str (_format_bytes memQ)),
     ("max_memory", PVal.str (_format_bytes maxmemQ)),
     ("memory_usage", PVal.str (format1 (_calculate_percentage mem2Q maxmem1Q) ++ "%")),
     ("disk", PVal.str (_format_bytes diskQ)),
     ("max_disk", PVal.str (_format_bytes maxdiskQ)),
     ("uptime", PVal.str uptime), ("cpus", cpus), ("pid", pid)])

/-- The basic per-VM dictionary of list_all_vms's inner except branch
(lines 135-143). -/
def vm_entry_basic (node_name : PVal) (vm : PVal) : Py PVal := do
  let vmid ← pyIdx vm "vmid"
  let name ← pyGet vm "name" (PVal.str "unnamed")
  let st ← pyIdx vm "status"
  let hasCpu ← pyInKey vm "cpu"
  let cpu ← if hasCpu then do
      let c ← pyGet vm "cpu" (PVal.int 0)
      let q ← toQ c
      pure (pct2 q)
    else pure "0%"
  let mem ← pyGet vm "mem" (PVal.int 0)
  let memQ ← toQ mem
  let upt ← pyGetN vm "uptime"
  let uptime ← if truthy upt then do
      let u ← pyGet vm "uptime" (PVal.int 0)
      let uz ← toZ u
      pure (_format_uptime uz)
    else pure "stopped"
  pure (PVal.dict
    [("vmid", vmid), ("name", name), ("node", node_name), ("status", st),
     ("cpu", PVal.str cpu), ("memory", PVal.str (_format_bytes memQ)),
     ("uptime", PVal.str uptime)])

/-- The body of list_all_vms's inner try (lines 115-132): fetch the detailed
status and build the detailed dictionary. -/
def vm_detailed_attempt (api : ProxApi) (node_name : PVal) (vm : PVal) : Py PVal := do
  let vmid ← pyIdx vm "vmid"
  let status ← api.qemu_status_current node_name vmid
  vm_entry_detailed node_name vm status

/-- One iteration of list_all_vms's inner VM loop (lines 113-144): the
status fetch and detailed dictionary under the inner try, the basic
dictionary on any inner exception. -/
def process_vm (api : ProxApi) (node_name : PVal) (acc : List PVal) (vm : PVal) :
    Py (List PVal) :=
  match vm_detailed_attempt api node_name vm with
  | Except.ok info => Except.ok (acc ++ [info])
  | Except.error _ => do
    let info ← vm_entry_basic node_name vm
    pure (acc ++ [info])

/-- One iteration of list_all_vms's node loop (lines 109-144). -/
def process_node (api : ProxApi) (acc : List PVal) (node : PVal) : Py (List PVal) := do
  let node_name ← pyIdx node "node"
  let vmsJ ← api.node_qemu_get node_name
  let vms ← asList vmsJ
  vms.foldlM (process_vm api node_name) acc

/-- Embedding of Tools.list_all_vms (proxmoxweaver.py lines 96-149). -/
def list_all_vms (api0 : Py ProxApi) : PVal :=
  match api0 with
  | Except.error e => errDict e
  | Except.ok api =>
    pyTry (do
      let nodesJ ← api.nodes_get
      let nodes ← asList nodesJ
      let all_vms ← nodes.foldlM (process_node api) ([] : List PVal)
      pure (if all_vms.isEmpty then
          PVal.list [PVal.dict [("message", PVal.str "No VMs found in cluster")]]
        else PVal.list all_vms))
      (fun e => errDict ("Failed to list VMs: " ++ e))

/-- The per-container dictionary of list_all_containers (lines 168-184). -/
def ct_entry (node_name : PVal) (ct : PVal) : Py PVal := do
  let vmid ← pyIdx ct "vmid"
  let name ← pyGet ct "name" (PVal.str "unnamed")
  let st ← pyIdx ct "status"
  let hasCpu ← pyInKey ct "cpu"
  let cpu ← if hasCpu then do
      let c ← pyGet ct "cpu" (PVal.int 0)
      let q ← toQ c
      pure (pct2 q)
    else pure "0%"
  let mem ← pyGet ct "mem" (PVal.int 0)
  let memQ ← toQ mem
  let maxmem ← pyGet ct "maxmem" (PVal.int 0)
  let maxmemQ ← toQ maxmem
  let mem2 ← pyGet ct "mem" (PVal.int 0)
  let mem2Q ← toQ mem2
  let maxmem1 ← pyGet ct "maxmem" (PVal.int 1)
  let maxmem1Q ← toQ maxmem1
  let disk ← pyGet ct "disk" (PVal.int 0)
  let diskQ ← toQ disk
  let maxdisk ← pyGet ct "maxdisk" (PVal.int 0)
  let maxdiskQ ← toQ maxdisk
  let upt ← pyGetN ct "uptime"
  let uptime ← if truthy upt then do
      let u ← pyGet ct "uptime" (PVal.int 0)
      let uz ← toZ u
      pure (_format_uptime uz)
    else pure "stopped"
  let swap ← pyGet ct "swap" (PVal.int 0)
  let swapQ ← toQ swap
  let maxswap ← pyGet ct "maxswap" (PVal.int 0)
  let maxswapQ ← toQ maxswap
  pure (PVal.dict
    [("vmid", vmid), ("name", name), ("node", node_name), ("status", st),
     ("cpu", PVal.str cpu), ("memory", PVal.str (_format_bytes memQ)),
     ("max_memory", PVal.str (_format_bytes maxmemQ)),
     ("memory_usage", PVal.str (format1 (_calculate_percentage mem2Q maxmem1Q) ++ "%")),
     ("disk", PVal.str (_format_bytes diskQ)),
     ("max_disk", PVal.str (_format_bytes maxdiskQ)),
     ("uptime", PVal.str uptime), ("swap", PVal.str (_format_bytes swapQ)),
     ("max_swap", PVal.str (_format_bytes maxswapQ))])

/-- One iteration of list_all_containers's node loop (lines 164-184). -/
def process_ct_node (api : ProxApi) (acc : List PVal) (node : PVal) : Py (List PVal) := do
  let node_name ← pyIdx node "node"
  let ctsJ ← api.node_lxc_get node_name
  let cts ← asList ctsJ
  cts.foldlM (fun acc ct => do
    let info ← ct_entry node_name ct
    pure (acc ++ [info])) acc

/-- Embedding of Tools.list_all_containers (proxmoxweaver.py lines 151-189). -/
def list_all_containers (api0 : Py ProxApi) : PVal :=
  match api0 with
  | Except.error e => errDict e
  | Except.ok api =>
    pyTry (do
      let nodesJ ← api.nodes_get
      let nodes ← asList nodesJ
      let all_cts ← nodes.foldlM (process_ct_node api) ([] : List PVal)
      pure (if all_cts.isEmpty then
          PVal.list [PVal.dict [("message", PVal.str "No containers found in cluster")]]
        else PVal.list all_cts))
      (fun e => errDict ("Failed to list containers: " ++ e))

/-- Shared uptime field: format when status.get('uptime') is truthy,
'stopped' otherwise. -/
def uptimeField (status : PVal) : Py PVal := do
  let upt ← pyGetN status "uptime"
  if truthy upt then do
    let u ← pyGet status "uptime" (PVal.int 0)
    let uz ← toZ u
    pure (PVal.str (_format_uptime uz))
  else pure (PVal.str "stopped")

/-- Embedding of Tools.get_vm_details (proxmoxweaver.py lines 191-251). -/
def get_vm_details (api0 : Py ProxApi) (node : String) (vmid : ℤ) : PVal :=
  match api0 with
  | Except.error e => errDict e
  | Except.ok api =>
    pyTry (do
      let status ← api.qemu_status_current (PVal.str node) (PVal.int vmid)
      let config ← api.qemu_config_get (PVal.str node) (PVal.int vmid)
      let snapshots : PVal ←
        (match api.qemu_snapshot_get (PVal.str node) (PVal.int vmid) with
         | Except.ok s => pure s
         | Except.error _ => pure (PVal.list []))
      let name ← pyGet status "name" (PVal.str "unnamed")
      let st ← pyGetN status "status"
      let uptime ← uptimeField status
      let cpuV ← pyGet status "cpu" (PVal.int 0)
      let cpuQ ← toQ cpuV
      let cores ← pyGet config "cores" (PVal.int 1)
      let sockets ← pyGet config "sockets" (PVal.int 1)
      let mem ← pyGet status "mem" (PVal.int 0)
      let memQ ← toQ mem
      let maxmem ← pyGet status "maxmem" (PVal.int 0)
      let maxmemQ ← toQ maxmem
      let mem2 ← pyGet status "mem" (PVal.int 0)
      let mem2Q ← toQ mem2
      let maxmem1 ← pyGet status "maxmem" (PVal.int 1)
      let maxmem1Q ← toQ maxmem1
      let disk ← pyGet status "disk" (PVal.int 0)
      let diskQ ← toQ disk
      let maxdisk ← pyGet status "maxdisk" (PVal.int 0)
      let maxdiskQ ← toQ maxdisk
      let diskread ← pyGet status "diskread" (PVal.int 0)
      let diskreadQ ← toQ diskread
      let diskwrite ← pyGet status "diskwrite" (PVal.int 0)
      let diskwriteQ ← toQ diskwrite
      let netin ← pyGet status "netin" (PVal.int 0)
      let netinQ ← toQ netin
      let netout ← pyGet status "netout" (PVal.int 0)
      let netoutQ ← toQ netout
      let boot ← pyGet config "boot" (PVal.str "cdn")
      let bios ← pyGet config "bios" (PVal.str "seabios")
      let machine ← pyGetN config "machine"
      let ostype ← pyGet config "ostype" (PVal.str "other")
      let snapLen : PVal ←
        if truthy snapshots then do
          let xs ← asList snapshots
          pure (PVal.int xs.length)
        else pure (PVal.int 0)
      let agent ← pyGet config "agent" (PVal.int 0)
      let protection ← pyGet config "protection" (PVal.int 0)
      let template ← pyGet config "template" (PVal.int 0)
      pure (PVal.dict
        [("vmid", PVal.int vmid), ("node", PVal.str node), ("name", name), ("status", st),
         ("uptime", uptime),
         ("cpu", PVal.dict [("usage", PVal.str (pct2 cpuQ)), ("cores", cores), ("sockets", sockets)]),
         ("memory", PVal.dict
           [("current", PVal.str (_format_bytes memQ)),
            ("maximum", PVal.str (_format_bytes maxmemQ)),
            ("usage", PVal.str (format1 (_calculate_percentage mem2Q maxmem1Q) ++ "%"))]),
         ("disk", PVal.dict
           [("usage", PVal.str (_format_bytes diskQ)),
            ("maximum", PVal.str (_format_bytes maxdiskQ)),
            ("read", PVal.str (_format_bytes diskreadQ)),
            ("write", PVal.str (_format_bytes diskwriteQ))]),
         ("network", PVal.dict
           [("in", PVal.str (_format_bytes netinQ)),
            ("out", PVal.str (_format_bytes netoutQ))]),
         ("boot_order", boot), ("bios", bios), ("machine", machine), ("os_type", ostype),
         ("snapshots", snapLen), ("agent", agent), ("protection", protection),
         ("template", template)]))
      (fun e => errDict ("Failed to get VM details: " ++ e))

/-- Embedding of Tools.get_container_details (proxmoxweaver.py lines 253-313). -/
def get_container_details (api0 : Py ProxApi) (node : String) (vmid : ℤ) : PVal :=
  match api0 with
  | Except.error e => errDict e
  | Except.ok api =>
    pyTry (do
      let status ← api.lxc_status_current (PVal.str node) (PVal.int vmid)
      let config ← api.lxc_config_get (PVal.str node) (PVal.int vmid)
      let snapshots : PVal ←
        (match api.lxc_snapshot_get (PVal.str node) (PVal.int vmid) with
         | Except.ok s => pure s
         | Except.error _ => pure (PVal.list []))
      let name ← pyGet status "name" (PVal.str "unnamed")
      let st ← pyGetN status "status"
      let uptime ← uptimeField status
      let cpuV ← pyGet status "cpu" (PVal.int 0)
      let cpuQ ← toQ cpuV
      let cores ← pyGetN config "cores"
      let mem ← pyGet status "mem" (PVal.int 0)
      let memQ ← toQ mem
      let maxmem ← pyGet status "maxmem" (PVal.int 0)
      let maxmemQ ← toQ maxmem
      let mem2 ← pyGet status "mem" (PVal.int 0)
      let mem2Q ← toQ mem2
      let maxmem1 ← pyGet status "maxmem" (PVal.int 1)
      let maxmem1Q ← toQ maxmem1
      let swap ← pyGet status "swap" (PVal.int 0)
      let swapQ ← toQ swap
      let maxswap ← pyGet status "maxswap" (PVal.int 0)
      let maxswapQ ← toQ maxswap
      let disk ← pyGet status "disk" (PVal.int 0)
      let diskQ ← toQ disk
      let maxdisk ← pyGet status "maxdisk" (PVal.int 0)
      let maxdiskQ ← toQ maxdisk
      let diskread ← pyGet status "diskread" (PVal.int 0)
      let diskreadQ ← toQ diskread
      let diskwrite ← pyGet status "diskwrite" (PVal.int 0)
      let diskwriteQ ← toQ diskwrite
      let netin ← pyGet status "netin" (PVal.int 0)
      let netinQ ← toQ netin
      let netout ← pyGet status "netout" (PVal.int 0)
      let netoutQ ← toQ netout
      let hostname ← pyGetN config "hostname"
      let ostype ← pyGet config "ostype" (PVal.str "unmanaged")
      let arch ← pyGet config "arch" (PVal.str "amd64")
      let snapLen : PVal ←
        if truthy snapshots then do
          let xs ← asList snapshots
          pure (PVal.int xs.length)
        else pure (PVal.int 0)
      let protection ← pyGet config "protection" (PVal.int 0)
      let template ← pyGet config "template" (PVal.int 0)
      let unprivileged ← pyGet config "unprivileged" (PVal.int 1)
      pure (PVal.dict
        [("vmid", PVal.int vmid), ("node", PVal.str node), ("name", name), ("status", st),
         ("uptime", uptime),
         ("cpu", PVal.dict [("usage", PVal.str (pct2 cpuQ)), ("cores", cores)]),
         ("memory", PVal.dict
           [("current", PVal.str (_format_bytes memQ)),
            ("maximum", PVal.str (_format_bytes maxmemQ)),
            ("usage", PVal.str (format1 (_calculate_percentage mem2Q maxmem1Q) ++ "%")),
            ("swap", PVal.str (_format_bytes swapQ)),
            ("max_swap", PVal.str (_format_bytes maxswapQ))]),
         ("disk", PVal.dict
           [("usage", PVal.str (_format_bytes diskQ)),
            ("maximum", PVal.str (_format_bytes maxdiskQ)),
            ("read", PVal.str (_format_bytes diskreadQ)),
            ("write", PVal.str (_format_bytes diskwriteQ))]),
         ("network", PVal.dict
           [("in", PVal.str (_format_bytes netinQ)),
            ("out", PVal.str (_format_bytes netoutQ))]),
         ("hostname", hostname), ("ostype", ostype), ("arch", arch),
         ("snapshots", snapLen), ("protection", protection), ("template", template),
         ("unprivileged", unprivileged)]))
      (fun e => errDict ("Failed to get container details: " ++ e))

/-- Embedding of Tools.check_connection (proxmoxweaver.py lines 1346-1376). -/
def check_connection (api0 : Py ProxApi) (host user : String) : PVal :=
  match api0 with
  | Except.error e =>
    PVal.dict [("status", PVal.str "Failed"), ("error", PVal.str e), ("host", PVal.str host)]
  | Except.ok api =>
    pyTry (do
      let version ← api.version_get
      let ver ← pyGet version "version" (PVal.str "unknown")
      let rel ← pyGet version "release" (PVal.str "unknown")
      pure (PVal.dict
        [("status", PVal.str "Connected"), ("host", PVal.str host),
         ("user", PVal.str user), ("version", ver), ("release", rel)]))
      (fun e => PVal.dict
        [("status", PVal.str "Failed"), ("error", PVal.str e), ("host", PVal.str host),
         ("suggestion", PVal.str "Check your host, credentials, and network connectivity")])

/-- Embedding of Tools.list_nodes (proxmoxweaver.py lines 1381-1389). -/
def list_nodes (api0 : Py ProxApi) : PVal :=
  match api0 with
  | Except.error e => errList e
  | Except.ok api => pyTry api.nodes_get errList

/-- Embedding of Tools.list_vms (proxmoxweaver.py lines 1391-1399). -/
def list_vms (api0 : Py ProxApi) (node : String) : PVal :=
  match api0 with
  | Except.error e => errList e
  | Except.ok api => pyTry (api.node_qemu_get (PVal.str node)) errList

/-- Embedding of Tools.list_containers (proxmoxweaver.py lines 1401-1409). -/
def list_containers (api0 : Py ProxApi) (node : String) : PVal :=
  match api0 with
  | Except.error e => errList e
  | Except.ok api => pyTry (api.node_lxc_get (PVal.str node)) errList

/-- Embedding of Tools.get_vm_status (proxmoxweaver.py lines 1411-1419). -/
def get_vm_status (api0 : Py ProxApi) (node : String) (vmid : ℤ) : PVal :=
  match api0 with
  | Except.error e => errDict e
  | Except.ok api => pyTry (api.qemu_status_current (PVal.str node) (PVal.int vmid)) errDict

/-- Embedding of Tools.get_container_status (proxmoxweaver.py lines 1421-1429). -/
def get_container_status (api0 : Py ProxApi) (node : String) (vmid : ℤ) : PVal :=
  match api0 with
  | Except.error e => errDict e
  | Except.ok api => pyTry (api.lxc_status_current (PVal.str node) (PVal.int vmid)) errDict

/-- The running totals of get_cluster_status's resource loop. -/
structure CSAcc where
  total_cpu : ℚ
  total_memory : ℚ
  total_memory_used : ℚ
  total_disk : ℚ
  total_disk_used : ℚ
  online_nodes : ℕ
  nodes_info : List PVal

/-- One iteration of get_cluster_status's resource loop (lines 341-358). -/
def cs_step (acc : CSAcc) (node : PVal) : Py CSAcc := do
  let ty ← pyIdx node "type"
  if pyEqStr ty "node" then do
    let maxcpu ← pyGet node "maxcpu" (PVal.int 0)
    let maxcpuQ ← toQ maxcpu
    let maxmem ← pyGet node "maxmem" (PVal.int 0)
    let maxmemQ ← toQ maxmem
    let mem ← pyGet node "mem" (PVal.int 0)
    let memQ ← toQ mem
    let maxdisk ← pyGet node "maxdisk" (PVal.int 0)
    let maxdiskQ ← toQ maxdisk
    let disk ← pyGet node "disk" (PVal.int 0)
    let diskQ ← toQ disk
    let stOnl ← pyGetN node "status"
    let nameV ← pyIdx node "node"
    let st ← pyGet node "status" (PVal.str "unknown")
    let hasCpu ← pyInKey node "cpu"
    let cpu_usage ← if hasCpu then do
        let c ← pyGet node "cpu" (PVal.int 0)
        let q ← toQ c
        pure (pct1 q)
      else pure "0%"
    let m2 ← pyGet node "mem" (PVal.int 0)
    let m2Q ← toQ m2
    let mm1 ← pyGet node "maxmem" (PVal.int 1)
    let mm1Q ← toQ mm1
    let upt ← pyGetN node "uptime"
    let uptime ← if truthy upt then do
        let u ← pyGet node "uptime" (PVal.int 0)
        let uz ← toZ u
        pure (_format_uptime uz)
      else pure "offline"
    pure { total_cpu := acc.total_cpu + maxcpuQ
           total_memory := acc.total_memory + maxmemQ
           total_memory_used := acc.total_memory_used + memQ
           total_disk := acc.total_disk + maxdiskQ
           total_disk_used := acc.total_disk_used + diskQ
           online_nodes := acc.online_nodes + (if pyEqStr stOnl "online" then 1 else 0)
           nodes_info := acc.nodes_info ++
             [PVal.dict [("name", nameV), ("status", st), ("cpu_usage", PVal.str cpu_usage),
               ("memory_usage", PVal.str (format1 (_calculate_percentage m2Q mm1Q) ++ "%")),
               ("uptime", PVal.str uptime)]] }
  else pure acc

/-- The generator-sum counting resources of one type (lines 362-363). -/
def countType (vms : List PVal) (ty : String) : Py ℕ :=
  vms.foldlM (fun n vm => do
    let t ← pyIdx vm "type"
    pure (n + if pyEqStr t ty then 1 else 0)) 0

/-- The generator-sum counting running resources of one type (lines 364-365,
with Python's short-circuiting and). -/
def countRunning (vms : List PVal) (ty : String) : Py ℕ :=
  vms.foldlM (fun n vm => do
    let t ← pyIdx vm "type"
    if pyEqStr t ty then do
      let st ← pyGetN vm "status"
      pure (n + if pyEqStr st "running" then 1 else 0)
    else pure n) 0

/-- Embedding of Tools.get_cluster_status (proxmoxweaver.py lines 317-409). -/
def get_cluster_status (api0 : Py ProxApi) : PVal :=
  match api0 with
  | Except.error e => errDict e
  | Except.ok api =>
    pyTry (do
      let cluster_status ← api.cluster_status_get
      let resources ← api.cluster_resources_get "node"
      let resList ← asList resources
      let acc ← resList.foldlM cs_step ⟨0, 0, 0, 0, 0, 0, []⟩
      let vmsV ← api.cluster_resources_get "vm"
      let vms ← asList vmsV
      let vm_count ← countType vms "qemu"
      let ct_count ← countType vms "lxc"
      let running_vms ← countRunning vms "qemu"
      let running_cts ← countRunning vms "lxc"
      let nameV ← if truthy cluster_status then do
          let h ← pyAt cluster_status 0
          pyGet h "name" (PVal.str "Proxmox Cluster")
        else pure (PVal.str "Proxmox Cluster")
      let versionV ← if truthy cluster_status then do
          let h ← pyAt cluster_status 0
          pyGetN h "version"
        else pure (PVal.str "unknown")
      let quorate ← if truthy cluster_status then do
          let h ← pyAt cluster_status 0
          pyGet h "quorate" (PVal.boolean true)
        else pure (PVal.boolean true)
      let cpu_usage := if 0 < acc.total_memory then
          format1 (acc.total_memory_used / acc.total_memory * 100) ++ "%"
        else "0%"
      pure (PVal.dict
        [("name", nameV), ("version", versionV),
         ("nodes", PVal.dict
           [("total", PVal.int acc.nodes_info.length),
            ("online", PVal.int acc.online_nodes),
            ("details", PVal.list acc.nodes_info)]),
         ("resources", PVal.dict
           [("cpu", PVal.dict
              [("total_cores", PVal.num acc.total_cpu),
               ("usage", PVal.str cpu_usage)]),
            ("memory", PVal.dict
              [("total", PVal.str (_format_bytes acc.total_memory)),
               ("used", PVal.str (_format_bytes acc.total_memory_used)),
               ("free", PVal.str (_format_bytes (acc.total_memory - acc.total_memory_used))),
               ("usage", PVal.str (format1 (_calculate_percentage acc.total_memory_used acc.total_memory) ++ "%"))]),
            ("storage", PVal.dict
              [("total", PVal.str (_format_bytes acc.total_disk)),
               ("used", PVal.str (_format_bytes acc.total_disk_used)),
               ("free", PVal.str (_format_bytes (acc.total_disk - acc.total_disk_used))),
               ("usage", PVal.str (format1 (_calculate_percentage acc.total_disk_used acc.total_disk) ++ "%"))])]),
         ("virtual_machines", PVal.dict
           [("total", PVal.int vm_count), ("running", PVal.int running_vms),
            ("stopped", PVal.int (vm_count - running_vms))]),
         ("containers", PVal.dict
           [("total", PVal.int ct_count), ("running", PVal.int running_cts),
            ("stopped", PVal.int (ct_count - running_cts))]),
         ("quorate", quorate)]))
      (fun e => errDict ("Failed to get cluster status: " ++ e))

/-- The all-nodes entry of get_node_status's inner try (lines 456-472);
the detailed status is fetched but the dictionary reads the summary row. -/
def node_status_entry (api : ProxApi) (n : PVal) : Py PVal := do
  let nn ← pyIdx n "node"
  let _status ← api.node_status_get nn
  let st ← pyGet n "status" (PVal.str "unknown")
  let upt ← pyGetN n "uptime"
  let uptime ← if truthy upt then do
      let u ← pyGet n "uptime" (PVal.int 0)
      let uz ← toZ u
      pure (_format_uptime uz)
    else pure "offline"
  let hasCpu ← pyInKey n "cpu"
  let cpu_usage ← if hasCpu then do
      let c ← pyGet n "cpu" (PVal.int 0)
      let q ← toQ c
      pure (pct1 q)
    else pure "0%"
  let mem ← pyGet n "mem" (PVal.int 0)
  let memQ ← toQ mem
  let maxmem ← pyGet n "maxmem" (PVal.int 0)
  let maxmemQ ← toQ maxmem
  let mem2 ← pyGet n "mem" (PVal.int 0)
  let mem2Q ← toQ mem2
  let maxmem1 ← pyGet n "maxmem" (PVal.int 1)
  let maxmem1Q ← toQ maxmem1
  let disk ← pyGet n "disk" (PVal.int 0)
  let diskQ ← toQ disk
  let maxdisk ← pyGet n "maxdisk" (PVal.int 0)
  let maxdiskQ ← toQ maxdisk
  let disk2 ← pyGet n "disk" (PVal.int 0)
  let disk2Q ← toQ disk2
  let maxdisk1 ← pyGet n "maxdisk" (PVal.int 1)
  let maxdisk1Q ← toQ maxdisk1
  pure (PVal.dict
    [("node", nn), ("status", st), ("uptime", PVal.str uptime),
     ("cpu_usage", PVal.str cpu_usage),
     ("memory", PVal.dict
       [("used", PVal.str (_format_bytes memQ)),
        ("total", PVal.str (_format_bytes maxmemQ)),
        ("usage", PVal.str (format1 (_calculate_percentage mem2Q maxmem1Q) ++ "%"))]),
     ("disk", PVal.dict
       [("used", PVal.str (_format_bytes diskQ)),
        ("total", PVal.str (_format_bytes maxdiskQ)),
        ("usage", PVal.str (format1 (_calculate_percentage disk2Q maxdisk1Q) ++ "%"))])])

/-- Embedding of Tools.get_node_status (proxmoxweaver.py lines 411-484). -/
def get_node_status (api0 : Py ProxApi) (node : Option String) : PVal :=
  match api0 with
  | Except.error e => errDict e
  | Except.ok api =>
    pyTry (
      if optTruthy node then do
        let node_status ← api.node_status_get (PVal.str (node.getD ""))
        let uptV ← pyGet node_status "uptime" (PVal.int 0)
        let uptZ ← toZ uptV
        let loadavg ← pyGet node_status "loadavg"
          (PVal.list [PVal.int 0, PVal.int 0, PVal.int 0])
        let ci1 ← pyGet node_status "cpuinfo" (PVal.dict [])
        let model ← pyGet ci1 "model" (PVal.str "Unknown")
        let ci2 ← pyGet node_status "cpuinfo" (PVal.dict [])
        let cpus ← pyGet ci2 "cpus" (PVal.int 0)
        let ci3 ← pyGet node_status "cpuinfo" (PVal.dict [])
        let sockets ← pyGet ci3 "sockets" (PVal.int 0)
        let cpuV ← pyGet node_status "cpu" (PVal.int 0)
        let cpuQ ← toQ cpuV
        let md1 ← pyGet node_status "memory" (PVal.dict [])
        let mtot ← pyGet md1 "total" (PVal.int 0)
        let mtotQ ← toQ mtot
        let md2 ← pyGet node_status "memory" (PVal.dict [])
        let mused ← pyGet md2 "used" (PVal.int 0)
        let musedQ ← toQ mused
        let md3 ← pyGet node_status "memory" (PVal.dict [])
        let mfree ← pyGet md3 "free" (PVal.int 0)
        let mfreeQ ← toQ mfree
        let md4 ← pyGet node_status "memory" (PVal.dict [])
        let mused2 ← pyGet md4 "used" (PVal.int 0)
        let mused2Q ← toQ mused2
        let md5 ← pyGet node_status "memory" (PVal.dict [])
        let mtot1 ← pyGet md5 "total" (PVal.int 1)
        let mtot1Q ← toQ mtot1
        let sd1 ← pyGet node_status "swap" (PVal.dict [])
        let stot ← pyGet sd1 "total" (PVal.int 0)
        let stotQ ← toQ stot
        let sd2 ← pyGet node_status "swap" (PVal.dict [])
        let sused ← pyGet sd2 "used" (PVal.int 0)
        let susedQ ← toQ sused
        let sd3 ← pyGet node_status "swap" (PVal.dict [])
        let sfree ← pyGet sd3 "free" (PVal.int 0)
        let sfreeQ ← toQ sfree
        let kernel ← pyGetN node_status "kversion"
        let pve ← pyGetN node_status "pveversion"
        pure (PVal.dict
          [("node", PVal.str (node.getD "")), ("status", PVal.str "online"),
           ("uptime", PVal.str (_format_uptime uptZ)),
           ("load_average", loadavg),
           ("cpu", PVal.dict
             [("model", model), ("cores", cpus), ("sockets", sockets),
              ("usage", PVal.str (pct1 cpuQ))]),
           ("memory", PVal.dict
             [("total", PVal.str (_format_bytes mtotQ)),
              ("used", PVal.str (_format_bytes musedQ)),
              ("free", PVal.str (_format_bytes mfreeQ)),
              ("usage", PVal.str (format1 (_calculate_percentage mused2Q mtot1Q) ++ "%"))]),
           ("swap", PVal.dict
             [("total", PVal.str (_format_bytes stotQ)),
              ("used", PVal.str (_format_bytes susedQ)),
              ("free", PVal.str (_format_bytes sfreeQ))]),
           ("kernel", kernel), ("pve_version", pve)])
      else do
        let nodesJ ← api.nodes_get
        let nodes ← asList nodesJ
        let lst ← nodes.foldlM (fun acc n => do
          match node_status_entry api n with
          | Except.ok v => pure (acc ++ [v])
          | Except.error _ => do
            let nn ← pyIdx n "node"
            let st ← pyGet n "status" (PVal.str "unknown")
            pure (acc ++ [PVal.dict
              [("node", nn), ("status", st),
               ("error", PVal.str "Unable to fetch detailed status")]])) ([] : List PVal)
        pure (PVal.list lst))
      (fun e => errDict ("Failed to get node status: " ++ e))

/-- The comma-split content list (`storage.get('content', '').split(',') if
storage.get('content') else []`) used by the storage methods. -/
def contentSplit (storage : PVal) : Py PVal := do
  let contentV ← pyGetN storage "content"
  if truthy contentV then do
    let cV ← pyGet storage "content" (PVal.str "")
    let cS ← asStr cV
    pure (PVal.list ((cS.splitOn ",").map PVal.str))
  else pure (PVal.list [])

/-- One entry of list_storage_pools (lines 500-533), including the inner
usage try/except. -/
def storage_pool_entry (api : ProxApi) (storage : PVal) : Py PVal := do
  let sid ← pyIdx storage "storage"
  let ty ← pyGet storage "type" (PVal.str "unknown")
  let enabled ← pyGet storage "enabled" (PVal.int 0)
  let shared ← pyGet storage "shared" (PVal.int 0)
  let content ← contentSplit storage
  let nodes ← pyGet storage "nodes" (PVal.str "all")
  let base := PVal.dict
    [("storage", sid), ("type", ty), ("enabled", enabled), ("shared", shared),
     ("content", content), ("nodes", nodes)]
  match (do
      let nodesJ ← api.nodes_get
      if truthy nodesJ then do
        let n0 ← pyAt nodesJ 0
        let node ← pyIdx n0 "node"
        let sid2 ← pyIdx storage "storage"
        let statusD ← api.node_storage_status node sid2
        let total ← pyGet statusD "total" (PVal.int 0)
        let totalQ ← toQ total
        let used ← pyGet statusD "used" (PVal.int 0)
        let usedQ ← toQ used
        let avail ← pyGet statusD "avail" (PVal.int 0)
        let availQ ← toQ avail
        let used2 ← pyGet statusD "used" (PVal.int 0)
        let used2Q ← toQ used2
        let total1 ← pyGet statusD "total" (PVal.int 1)
        let total1Q ← toQ total1
        let active ← pyGet statusD "active" (PVal.int 0)
        pyUpdate base
          [("total", PVal.str (_format_bytes totalQ)),
           ("used", PVal.str (_format_bytes usedQ)),
           ("available", PVal.str (_format_bytes availQ)),
           ("usage", PVal.str (format1 (_calculate_percentage used2Q total1Q) ++ "%")),
           ("active", active)]
      else pure base : Py PVal) with
  | Except.ok v => pure v
  | Except.error _ =>
    pyUpdate base
      [("total", PVal.str "N/A"), ("used", PVal.str "N/A"),
       ("available", PVal.str "N/A"), ("usage", PVal.str "N/A"),
       ("active", PVal.str "unknown")]

/-- Embedding of Tools.list_storage_pools (proxmoxweaver.py lines 488-538). -/
def list_storage_pools (api0 : Py ProxApi) : PVal :=
  match api0 with
  | Except.error e => errList e
  | Except.ok api =>
    pyTry (do
      let storagesJ ← api.storage_get
      let storages ← asList storagesJ
      let lst ← storages.foldlM (fun acc s => do
        let e ← storage_pool_entry api s
        pure (acc ++ [e])) ([] : List PVal)
      pure (PVal.list lst))
      (fun e => errList ("Failed to list storage pools: " ++ e))

/-- Embedding of Tools.get_storage_details (proxmoxweaver.py lines 540-616). -/
def get_storage_details (api0 : Py ProxApi) (storage : String) : PVal :=
  match api0 with
  | Except.error e => errDict e
  | Except.ok api =>
    pyTry (do
      let cfgList ← api.storage_item_get (PVal.str storage)
      let config ← pyAt cfgList 0
      let ty ← pyGet config "type" (PVal.str "unknown")
      let enabled ← pyGet config "enabled" (PVal.int 0)
      let shared ← pyGet config "shared" (PVal.int 0)
      let content ← contentSplit config
      let nodes ← pyGet config "nodes" (PVal.str "all")
      let details := PVal.dict
        [("storage", PVal.str storage), ("type", ty), ("enabled", enabled),
         ("shared", shared), ("content", content), ("nodes", nodes)]
      let tyV ← pyGet config "type" (PVal.str "")
      let tyS ← asStr tyV
      let st := tyS.toLower
      let details ← (if st == "nfs" then do
          let server ← pyGet config "server" (PVal.str "N/A")
          let exprt ← pyGet config "export" (PVal.str "N/A")
          let path ← pyGet config "path" (PVal.str "N/A")
          let options ← pyGet config "options" (PVal.str "N/A")
          pySet details "nfs" (PVal.dict
            [("server", server), ("export", exprt), ("path", path), ("options", options)])
        else if st == "cifs" then do
          let server ← pyGet config "server" (PVal.str "N/A")
          let share ← pyGet config "share" (PVal.str "N/A")
          let username ← pyGet config "username" (PVal.str "N/A")
          let domain ← pyGet config "domain" (PVal.str "N/A")
          pySet details "cifs" (PVal.dict
            [("server", server), ("share", share), ("username", username), ("domain", domain)])
        else if st == "glusterfs" then do
          let server ← pyGet config "server" (PVal.str "N/A")
          let volume ← pyGet config "volume" (PVal.str "N/A")
          pySet details "glusterfs" (PVal.dict [("server", server), ("volume", volume)])
        else if st == "iscsi" then do
          let portal ← pyGet config "portal" (PVal.str "N/A")
          let target ← pyGet config "target" (PVal.str "N/A")
          pySet details "iscsi" (PVal.dict [("portal", portal), ("target", target)])
        else if ["dir", "lvm", "lvmthin", "zfs", "zfspool", "rbd", "cephfs"].contains st then do
          let p ← pyGet config "path" (PVal.str "N/A")
          let details ← pySet details "path" p
          if st == "rbd" then do
            let pool ← pyGet config "pool" (PVal.str "N/A")
            let monhost ← pyGet config "monhost" (PVal.str "N/A")
            let username ← pyGet config "username" (PVal.str "N/A")
            pySet details "rbd" (PVal.dict
              [("pool", pool), ("monhost", monhost), ("username", username)])
          else pure details
        else pure details : Py PVal)
      let details ← (match (do
          let nodesJ ← api.nodes_get
          if truthy nodesJ then do
            let n0 ← pyAt nodesJ 0
            let node ← pyIdx n0 "node"
            let statusD ← api.node_storage_status node (PVal.str storage)
            let total ← pyGet statusD "total" (PVal.int 0)
            let totalQ ← toQ total
            let used ← pyGet statusD "used" (PVal.int 0)
            let usedQ ← toQ used
            let avail ← pyGet statusD "avail" (PVal.int 0)
            let availQ ← toQ avail
            let used2 ← pyGet statusD "used" (PVal.int 0)
            let used2Q ← toQ used2
            let total1 ← pyGet statusD "total" (PVal.int 1)
            let total1Q ← toQ total1
            let active ← pyGet statusD "active" (PVal.int 0)
            pySet details "status" (PVal.dict
              [("total", PVal.str (_format_bytes totalQ)),
               ("used", PVal.str (_format_bytes usedQ)),
               ("available", PVal.str (_format_bytes availQ)),
               ("usage", PVal.str (format1 (_calculate_percentage used2Q total1Q) ++ "%")),
               ("active", active)])
          else pure details : Py PVal) with
        | Except.ok d => pure d
        | Except.error _ => pySet details "status" (PVal.str "Unable to fetch current status"))
      pure details)
      (fun e => errDict ("Failed to get storage details: " ++ e))

/-- One entry of get_node_storage (lines 630-657), including the inner
status_details try/except pass. -/
def node_storage_entry (api : ProxApi) (node : String) (storage : PVal) : Py PVal := do
  let sid ← pyIdx storage "storage"
  let ty ← pyGet storage "type" (PVal.str "unknown")
  let active ← pyGet storage "active" (PVal.int 0)
  let enabled ← pyGet storage "enabled" (PVal.int 0)
  let shared ← pyGet storage "shared" (PVal.int 0)
  let content ← contentSplit storage
  let total ← pyGet storage "total" (PVal.int 0)
  let totalQ ← toQ total
  let used ← pyGet storage "used" (PVal.int 0)
  let usedQ ← toQ used
  let avail ← pyGet storage "avail" (PVal.int 0)
  let availQ ← toQ avail
  let used2 ← pyGet storage "used" (PVal.int 0)
  let used2Q ← toQ used2
  let total1 ← pyGet storage "total" (PVal.int 1)
  let total1Q ← toQ total1
  let base := PVal.dict
    [("storage", sid), ("type", ty), ("active", active), ("enabled", enabled),
     ("shared", shared), ("content", content),
     ("total", PVal.str (_format_bytes totalQ)),
     ("used", PVal.str (_format_bytes usedQ)),
     ("available", PVal.str (_format_bytes availQ)),
     ("usage", PVal.str (format1 (_calculate_percentage used2Q total1Q) ++ "%"))]
  match (do
      let sid2 ← pyIdx storage "storage"
      let statusD ← api.node_storage_status (PVal.str node) sid2
      let ty2 ← pyGet storage "type" (PVal.str "unknown")
      let sty ← pyGet statusD "type" ty2
      let stotal ← pyGet statusD "total" (PVal.int 0)
      let sused ← pyGet statusD "used" (PVal.int 0)
      let savail ← pyGet statusD "avail" (PVal.int 0)
      let sactive ← pyGet statusD "active" (PVal.int 0)
      pySet base "status_details" (PVal.dict
        [("type", sty), ("total", stotal), ("used", sused),
         ("available", savail), ("active", sactive)]) : Py PVal) with
  | Except.ok v => pure v
  | Except.error _ => pure base

/-- Embedding of Tools.get_node_storage (proxmoxweaver.py lines 618-662). -/
def get_node_storage (api0 : Py ProxApi) (node : String) : PVal :=
  match api0 with
  | Except.error e => errList e
  | Except.ok api =>
    pyTry (do
      let storagesJ ← api.node_storage_get (PVal.str node)
      let storages ← asList storagesJ
      let lst ← storages.foldlM (fun acc s => do
        let e ← node_storage_entry api node s
        pure (acc ++ [e])) ([] : List PVal)
      pure (PVal.list lst))
      (fun e => errList ("Failed to get node storage: " ++ e))

/-- One NFS entry of get_nfs_storages (lines 678-707), including the inner
mount-status try/except. -/
def nfs_entry (api : ProxApi) (storage : PVal) : Py PVal := do
  let sid ← pyIdx storage "storage"
  let server ← pyGet storage "server" (PVal.str "N/A")
  let exprt ← pyGet storage "export" (PVal.str "N/A")
  let path ← pyGet storage "path" (PVal.str "N/A")
  let enabled ← pyGet storage "enabled" (PVal.int 0)
  let shared ← pyGet storage "shared" (PVal.int 0)
  let content ← contentSplit storage
  let nodes ← pyGet storage "nodes" (PVal.str "all")
  let options ← pyGet storage "options" (PVal.str "defaults")
  let base := PVal.dict
    [("storage", sid), ("type", PVal.str "NFS"), ("server", server), ("export", exprt),
     ("path", path), ("enabled", enabled), ("shared", shared), ("content", content),
     ("nodes", nodes), ("options", options)]
  match (do
      let nodesJ ← api.nodes_get
      if truthy nodesJ then do
        let n0 ← pyAt nodesJ 0
        let node ← pyIdx n0 "node"
        let sid2 ← pyIdx storage "storage"
        let statusD ← api.node_storage_status node sid2
        let active ← pyGet statusD "active" (PVal.int 0)
        let total ← pyGet statusD "total" (PVal.int 0)
        let totalQ ← toQ total
        let used ← pyGet statusD "used" (PVal.int 0)
        let usedQ ← toQ used
        let avail ← pyGet statusD "avail" (PVal.int 0)
        let availQ ← toQ avail
        let used2 ← pyGet statusD "used" (PVal.int 0)
        let used2Q ← toQ used2
        let total1 ← pyGet statusD "total" (PVal.int 1)
        let total1Q ← toQ total1
        pySet base "mount_status" (PVal.dict
          [("mounted", PVal.boolean (pyEqInt active 1)),
           ("total", PVal.str (_format_bytes totalQ)),
           ("used", PVal.str (_format_bytes usedQ)),
           ("available", PVal.str (_format_bytes availQ)),
           ("usage", PVal.str (format1 (_calculate_percentage used2Q total1Q) ++ "%"))])
      else pure base : Py PVal) with
  | Except.ok v => pure v
  | Except.error _ => pySet base "mount_status" (PVal.str "Unable to determine mount status")

/-- Embedding of Tools.get_nfs_storages (proxmoxweaver.py lines 664-712). -/
def get_nfs_storages (api0 : Py ProxApi) : PVal :=
  match api0 with
  | Except.error e => errList e
  | Except.ok api =>
    pyTry (do
      let storagesJ ← api.storage_get
      let storages ← asList storagesJ
      let lst ← storages.foldlM (fun acc s => do
        let tyV ← pyGet s "type" (PVal.str "")
        let tyS ← asStr tyV
        if tyS.toLower == "nfs" then do
          let e ← nfs_entry api s
          pure (acc ++ [e])
        else pure acc) ([] : List PVal)
      pure (if lst.isEmpty then
          PVal.list [PVal.dict [("message", PVal.str "No NFS storages found")]]
        else PVal.list lst))
      (fun e => errList ("Failed to get NFS storages: " ++ e))

/-- The backup dictionary of list_backups (lines 730-739 and 754-763). -/
def backup_entry (env : PyEnv) (node storageId : PVal) (item : PVal) : Py PVal := do
  let volid ← pyIdx item "volid"
  let vmid ← pyGetN item "vmid"
  let size ← pyGet item "size" (PVal.int 0)
  let sizeQ ← toQ size
  let fmt ← pyGetN item "format"
  let ct ← pyGetN item "ctime"
  let creation ← if truthy ct then do
      let c ← pyGet item "ctime" (PVal.int 0)
      let cQ ← toQ c
      pure (env.fmt_datetime cQ)
    else pure "unknown"
  let notes ← pyGet item "notes" (PVal.str "")
  pure (PVal.dict
    [("volid", volid), ("vmid", vmid), ("node", node), ("storage", storageId),
     ("size", PVal.str (_format_bytes sizeQ)), ("format", fmt),
     ("creation_time", PVal.str creation), ("notes", notes)])

/-- Embedding of Tools.list_backups (proxmoxweaver.py lines 714-771). -/
def list_backups (api0 : Py ProxApi) (env : PyEnv) (storage node : Option String) : PVal :=
  match api0 with
  | Except.error e => errList e
  | Except.ok api =>
    pyTry (do
      let backups ←
        if optTruthy storage && optTruthy node then do
          let content ← api.node_storage_content (PVal.str (node.getD ""))
            (PVal.str (storage.getD ""))
          let items ← asList content
          items.foldlM (fun acc item => do
            let c ← pyGetN item "content"
            if pyEqStr c "backup" then do
              let e ← backup_entry env (PVal.str (node.getD "")) (PVal.str (storage.getD "")) item
              pure (acc ++ [e])
            else pure acc) ([] : List PVal)
        else do
          let nodesJ ← api.nodes_get
          let nodes ← asList nodesJ
          let storagesJ ← api.storage_get
          let storages ← asList storagesJ
          nodes.foldlM (fun acc node_info => do
            let node_name ← pyIdx node_info "node"
            storages.foldlM (fun acc stor => do
              let cV ← pyGet stor "content" (PVal.str "")
              let hasB ← pyInKey cV "backup"
              if hasB then
                match (do
                    let sid ← pyIdx stor "storage"
                    let content ← api.node_storage_content node_name sid
                    let items ← asList content
                    items.foldlM (fun acc2 item => do
                      let c ← pyGetN item "content"
                      if pyEqStr c "backup" then do
                        let sid2 ← pyIdx stor "storage"
                        let e ← backup_entry env node_name sid2 item
                        pure (acc2 ++ [e])
                      else pure acc2) acc : Py (List PVal)) with
                | Except.ok l => pure l
                | Except.error _ => pure acc
              else pure acc) acc) ([] : List PVal)
      pure (if backups.isEmpty then
          PVal.list [PVal.dict [("message", PVal.str "No backups found")]]
        else PVal.list backups))
      (fun e => errList ("Failed to list backups: " ++ e))

/-- The task dictionary of list_recent_tasks's single-node branch
(lines 790-800). -/
def task_entry_node (env : PyEnv) (task : PVal) : Py PVal := do
  let upid ← pyGetN task "upid"
  let node ← pyGetN task "node"
  let pid ← pyGetN task "pid"
  let pstart ← pyGetN task "pstart"
  let ty ← pyGetN task "type"
  let st ← pyGet task "status" (PVal.str "running")
  let user ← pyGetN task "user"
  let stt ← pyGetN task "starttime"
  let starttime ← if truthy stt then do
      let c ← pyGet task "starttime" (PVal.int 0)
      let q ← toQ c
      pure (env.fmt_datetime q)
    else pure "unknown"
  let ett ← pyGetN task "endtime"
  let endtime ← if truthy ett then do
      let c ← pyGet task "endtime" (PVal.int 0)
      let q ← toQ c
      pure (env.fmt_datetime q)
    else pure "running"
  pure (PVal.dict
    [("upid", upid), ("node", node), ("pid", pid), ("pstart", pstart), ("type", ty),
     ("status", st), ("user", user), ("starttime", PVal.str starttime),
     ("endtime", PVal.str endtime)])

/-- The task dictionary of list_recent_tasks's all-nodes branch
(lines 809-818), which omits pstart. -/
def task_entry_all (env : PyEnv) (task : PVal) : Py PVal := do
  let upid ← pyGetN task "upid"
  let node ← pyGetN task "node"
  let pid ← pyGetN task "pid"
  let ty ← pyGetN task "type"
  let st ← pyGet task "status" (PVal.str "running")
  let user ← pyGetN task "user"
  let stt ← pyGetN task "starttime"
  let starttime ← if truthy stt then do
      let c ← pyGet task "starttime" (PVal.int 0)
      let q ← toQ c
      pure (env.fmt_datetime q)
    else pure "unknown"
  let ett ← pyGetN task "endtime"
  let endtime ← if truthy ett then do
      let c ← pyGet task "endtime" (PVal.int 0)
      let q ← toQ c
      pure (env.fmt_datetime q)
    else pure "running"
  pure (PVal.dict
    [("upid", upid), ("node", node), ("pid", pid), ("type", ty),
     ("status", st), ("user", user), ("starttime", PVal.str starttime),
     ("endtime", PVal.str endtime)])

/-- The sort key x['starttime'] of list_recent_tasks; total because every
constructed entry carries a starttime string. -/
def taskKey (t : PVal) : String :=
  match pyIdx t "starttime" with
  | Except.ok (PVal.str s) => s
  | _ => ""

/-- Python list[:limit], including the negative-limit slice semantics. -/
def pySliceTo (xs : List PVal) (limit : ℤ) : List PVal :=
  if 0 ≤ limit then xs.take limit.toNat
  else xs.take (xs.length - (-limit).toNat)

/-- Embedding of Tools.list_recent_tasks (proxmoxweaver.py lines 775-829).
Python's stable sort with reverse=True keeps ties in encounter order, which
is mergeSort with the negated strict comparison. -/
def list_recent_tasks (api0 : Py ProxApi) (env : PyEnv) (node : Option String) (limit : ℤ) :
    PVal :=
  match api0 with
  | Except.error e => errList e
  | Except.ok api =>
    pyTry (do
      let tasks ←
        if optTruthy node then do
          let tJ ← api.node_tasks_get (PVal.str (node.getD "")) limit
          let ts ← asList tJ
          ts.foldlM (fun acc t => do
            let e ← task_entry_node env t
            pure (acc ++ [e])) ([] : List PVal)
        else do
          let nodesJ ← api.nodes_get
          let nodes ← asList nodesJ
          nodes.foldlM (fun acc node_info => do
            match (do
                let nn ← pyIdx node_info "node"
                let tJ ← api.node_tasks_get nn (Int.fdiv limit nodes.length)
                let ts ← asList tJ
                ts.foldlM (fun a t => do
                  let e ← task_entry_all env t
                  pure (a ++ [e])) acc : Py (List PVal)) with
            | Except.ok l => pure l
            | Except.error _ => pure acc) ([] : List PVal)
      let sorted := tasks.mergeSort (fun a b => !(decide (taskKey a < taskKey b)))
      pure (if tasks.isEmpty then
          PVal.list [PVal.dict [("message", PVal.str "No recent tasks found")]]
        else PVal.list (pySliceTo sorted limit)))
      (fun e => errList ("Failed to list tasks: " ++ e))

/-- The log dictionary of get_cluster_log (lines 845-852). -/
def log_entry (env : PyEnv) (entry : PVal) : Py PVal := do
  let t ← pyGetN entry "time"
  let time ← if truthy t then do
      let c ← pyGet entry "time" (PVal.int 0)
      let q ← toQ c
      pure (env.fmt_datetime q)
    else pure "unknown"
  let node ← pyGet entry "node" (PVal.str "cluster")
  let user ← pyGet entry "user" (PVal.str "system")
  let msg ← pyGet entry "msg" (PVal.str "")
  let pri ← pyGet entry "pri" (PVal.int 6)
  let tag ← pyGet entry "tag" (PVal.str "system")
  pure (PVal.dict
    [("time", PVal.str time), ("node", node), ("user", user), ("message", msg),
     ("priority", pri), ("tag", tag)])

/-- Embedding of Tools.get_cluster_log (proxmoxweaver.py lines 831-858). -/
def get_cluster_log (api0 : Py ProxApi) (env : PyEnv) (max_lines : ℤ) : PVal :=
  match api0 with
  | Except.error e => errList e
  | Except.ok api =>
    pyTry (do
      let logJ ← api.cluster_log_get max_lines
      let entries ← asList logJ
      let lst ← entries.foldlM (fun acc e => do
        let v ← log_entry env e
        pure (acc ++ [v])) ([] : List PVal)
      pure (if lst.isEmpty then
          PVal.list [PVal.dict [("message", PVal.str "No log entries found")]]
        else PVal.list lst))
      (fun e => errList ("Failed to get cluster log: " ++ e))

/-- The snapshot dictionary of list_snapshots (lines 880-887). -/
def snap_entry (env : PyEnv) (snap : PVal) : Py PVal := do
  let name ← pyIdx snap "name"
  let desc ← pyGet snap "description" (PVal.str "")
  let st ← pyGetN snap "snaptime"
  let creation ← if truthy st then do
      let c ← pyGet snap "snaptime" (PVal.int 0)
      let q ← toQ c
      pure (env.fmt_datetime q)
    else pure "unknown"
  let parent ← pyGetN snap "parent"
  let vmstate ← pyGet snap "vmstate" (PVal.int 0)
  let ram ← pyGetN snap "vmstate"
  pure (PVal.dict
    [("name", name), ("description", desc), ("creation_time", PVal.str creation),
     ("parent", parent), ("vmstate", vmstate),
     ("ram_included", PVal.str (if truthy ram then "Yes" else "No"))])

/-- Embedding of Tools.list_snapshots (proxmoxweaver.py lines 862-893). -/
def list_snapshots (api0 : Py ProxApi) (env : PyEnv) (node : String) (vmid : ℤ)
    (vm_type : String) : PVal :=
  match api0 with
  | Except.error e => errList e
  | Except.ok api =>
    pyTry (do
      let snapsJ ← if vm_type == "qemu" then
          api.qemu_snapshot_get (PVal.str node) (PVal.int vmid)
        else api.lxc_snapshot_get (PVal.str node) (PVal.int vmid)
      let snaps ← asList snapsJ
      let lst ← snaps.foldlM (fun acc snap => do
        let nm ← pyIdx snap "name"
        if pyEqStr nm "current" then pure acc
        else do
          let e ← snap_entry env snap
          pure (acc ++ [e])) ([] : List PVal)
      pure (if lst.isEmpty then
          PVal.list [PVal.dict
            [("message", PVal.str ("No snapshots found for " ++ vm_type ++ " " ++ toString vmid))]]
        else PVal.list lst))
      (fun e => errList ("Failed to list snapshots: " ++ e))

/-- The template dictionary of list_templates (lines 914-922 and 929-937for
either resource type). -/
def template_entry (node_name : PVal) (vm : PVal) (ty : String) : Py PVal := do
  let vmid ← pyIdx vm "vmid"
  let name ← pyGet vm "name" (PVal.str "unnamed")
  let maxdisk ← pyGet vm "maxdisk" (PVal.int 0)
  let maxdiskQ ← toQ maxdisk
  let maxmem ← pyGet vm "maxmem" (PVal.int 0)
  let maxmemQ ← toQ maxmem
  let cpus ← pyGet vm "cpus" (PVal.int 1)
  pure (PVal.dict
    [("vmid", vmid), ("name", name), ("node", node_name), ("type", PVal.str ty),
     ("disk_size", PVal.str (_format_bytes maxdiskQ)),
     ("memory", PVal.str (_format_bytes maxmemQ)), ("cpus", cpus)])

/-- Embedding of Tools.list_templates (proxmoxweaver.py lines 895-943). -/
def list_templates (api0 : Py ProxApi) : PVal :=
  match api0 with
  | Except.error e => errList e
  | Except.ok api =>
    pyTry (do
      let nodesJ ← api.nodes_get
      let nodes ← asList nodesJ
      let lst ← nodes.foldlM (fun acc node => do
        let node_name ← pyIdx node "node"
        let vmsJ ← api.node_qemu_get node_name
        let vms ← asList vmsJ
        let acc ← vms.foldlM (fun a vm => do
          let t ← pyGet vm "template" (PVal.int 0)
          if pyEqInt t 1 then do
            let e ← template_entry node_name vm "qemu"
            pure (a ++ [e])
          else pure a) acc
        let ctsJ ← api.node_lxc_get node_name
        let cts ← asList ctsJ
        cts.foldlM (fun a ct => do
          let t ← pyGet ct "template" (PVal.int 0)
          if pyEqInt t 1 then do
            let e ← template_entry node_name ct "lxc"
            pure (a ++ [e])
          else pure a) acc) ([] : List PVal)
      pure (if lst.isEmpty then
          PVal.list [PVal.dict [("message", PVal.str "No templates found in cluster")]]
        else PVal.list lst))
      (fun e => errList ("Failed to list templates: " ++ e))

/-- The user dictionary of list_users (lines 960-970). -/
def user_entry (env : PyEnv) (user : PVal) : Py PVal := do
  let userid ← pyIdx user "userid"
  let en ← pyGet user "enable" (PVal.int 1)
  let enable := if pyEqInt en 1 then "Enabled" else "Disabled"
  let expV ← pyGet user "expire" (PVal.int 0)
  let expQ ← toQ expV
  let expire ← if 0 < expQ then do
      let e2 ← pyIdx user "expire"
      let q ← toQ e2
      pure (env.fmt_date q)
    else pure "Never"
  let firstname ← pyGet user "firstname" (PVal.str "")
  let lastname ← pyGet user "lastname" (PVal.str "")
  let email ← pyGet user "email" (PVal.str "")
  let comment ← pyGet user "comment" (PVal.str "")
  let gV ← pyGetN user "groups"
  let groups ← if truthy gV then do
      let g ← pyGet user "groups" (PVal.str "")
      let gS ← asStr g
      pure (PVal.list ((gS.splitOn ",").map PVal.str))
    else pure (PVal.list [])
  let tokens ← pyGet user "tokens" (PVal.list [])
  pure (PVal.dict
    [("userid", userid), ("enable", PVal.str enable), ("expire", PVal.str expire),
     ("firstname", firstname), ("lastname", lastname), ("email", email),
     ("comment", comment), ("groups", groups), ("tokens", tokens)])

/-- Embedding of Tools.list_users (proxmoxweaver.py lines 947-976). -/
def list_users (api0 : Py ProxApi) (env : PyEnv) : PVal :=
  match api0 with
  | Except.error e => errList e
  | Except.ok api =>
    pyTry (do
      let usersJ ← api.access_users_get
      let users ← asList usersJ
      let lst ← users.foldlM (fun acc u => do
        let e ← user_entry env u
        pure (acc ++ [e])) ([] : List PVal)
      pure (if lst.isEmpty then
          PVal.list [PVal.dict [("message", PVal.str "No users found")]]
        else PVal.list lst))
      (fun e => errList ("Failed to list users: " ++ e))

/-- Embedding of Tools.list_groups (proxmoxweaver.py lines 978-1001). -/
def list_groups (api0 : Py ProxApi) : PVal :=
  match api0 with
  | Except.error e => errList e
  | Except.ok api =>
    pyTry (do
      let groupsJ ← api.access_groups_get
      let groups ← asList groupsJ
      let lst ← groups.foldlM (fun acc g => do
        let groupid ← pyIdx g "groupid"
        let comment ← pyGet g "comment" (PVal.str "")
        let uV ← pyGetN g "users"
        let users ← if truthy uV then do
            let u ← pyGet g "users" (PVal.str "")
            let uS ← asStr u
            pure (PVal.list ((uS.splitOn ",").map PVal.str))
          else pure (PVal.list [])
        pure (acc ++ [PVal.dict
          [("groupid", groupid), ("comment", comment), ("users", users)]])) ([] : List PVal)
      pure (if lst.isEmpty then
          PVal.list [PVal.dict [("message", PVal.str "No groups found")]]
        else PVal.list lst))
      (fun e => errList ("Failed to list groups: " ++ e))

/-- Embedding of Tools.list_roles (proxmoxweaver.py lines 1003-1026). -/
def list_roles (api0 : Py ProxApi) : PVal :=
  match api0 with
  | Except.error e => errList e
  | Except.ok api =>
    pyTry (do
      let rolesJ ← api.access_roles_get
      let roles ← asList rolesJ
      let lst ← roles.foldlM (fun acc r => do
        let roleid ← pyIdx r "roleid"
        let pV ← pyGetN r "privs"
        let privs ← if truthy pV then do
            let p ← pyGet r "privs" (PVal.str "")
            let pS ← asStr p
            pure (PVal.list ((pS.splitOn ",").map PVal.str))
          else pure (PVal.list [])
        let special ← pyGet r "special" (PVal.int 0)
        pure (acc ++ [PVal.dict
          [("roleid", roleid), ("privs", privs), ("special", special)]])) ([] : List PVal)
      pure (if lst.isEmpty then
          PVal.list [PVal.dict [("message", PVal.str "No roles found")]]
        else PVal.list lst))
      (fun e => errList ("Failed to list roles: " ++ e))

/-- The parse of one netN configuration string (lines 1061-1066): split on
commas, and for each part carrying '=' assign key to value with maxsplit 1. -/
def parse_net_config (base : List (String × PVal)) (net_config : PVal) :
    List (String × PVal) :=
  match net_config with
  | PVal.str s =>
    (s.splitOn ",").foldl (fun acc part =>
      if strIncludes part "=" then
        updateKV acc ((part.splitOn "=").headD "")
          (PVal.str (String.intercalate "=" ((part.splitOn "=").tail)))
      else acc) base
  | _ => base

/-- Embedding of Tools.get_vm_network (proxmoxweaver.py lines 1030-1081). -/
def get_vm_network (api0 : Py ProxApi) (node : String) (vmid : ℤ) (vm_type : String) : PVal :=
  match api0 with
  | Except.error e => errDict e
  | Except.ok api =>
    pyTry (do
      let config ← if vm_type == "qemu" then
          api.qemu_config_get (PVal.str node) (PVal.int vmid)
        else api.lxc_config_get (PVal.str node) (PVal.int vmid)
      let kvs ← (match config with
        | PVal.dict kvs => pure kvs
        | _ => Except.error "TypeError: value is not iterable" : Py (List (String × PVal)))
      let interfaces := kvs.foldl (fun acc (kv : String × PVal) =>
        if kv.1.startsWith "net" then
          acc ++ [PVal.dict (parse_net_config [("name", PVal.str kv.1), ("config", kv.2)] kv.2)]
        else acc) ([] : List PVal)
      let base := PVal.dict
        [("vmid", PVal.int vmid), ("node", PVal.str node), ("type", PVal.str vm_type),
         ("interfaces", PVal.list interfaces)]
      if vm_type == "qemu" then
        match (do
            let agent_info ← api.qemu_agent_get (PVal.str node) (PVal.int vmid)
              "network-get-interfaces"
            pyGet agent_info "result" (PVal.list []) : Py PVal) with
        | Except.ok r => pySet base "agent_network" r
        | Except.error _ => pySet base "agent_network" (PVal.str "Agent not available")
      else pure base)
      (fun e => errDict ("Failed to get network info: " ++ e))

/-- The rule dictionary of get_firewall_status (lines 1111-1122). -/
def fw_rule_entry (rule : PVal) : Py PVal := do
  let pos ← pyGetN rule "pos"
  let ty ← pyGetN rule "type"
  let action ← pyGetN rule "action"
  let enable ← pyGet rule "enable" (PVal.int 1)
  let source ← pyGet rule "source" (PVal.str "any")
  let dest ← pyGet rule "dest" (PVal.str "any")
  let proto ← pyGet rule "proto" (PVal.str "any")
  let dport ← pyGet rule "dport" (PVal.str "")
  let sport ← pyGet rule "sport" (PVal.str "")
  let comment ← pyGet rule "comment" (PVal.str "")
  pure (PVal.dict
    [("pos", pos), ("type", ty), ("action", action), ("enable", enable),
     ("source", source), ("dest", dest), ("proto", proto), ("dport", dport),
     ("sport", sport), ("comment", comment)])

/-- Embedding of Tools.get_firewall_status (proxmoxweaver.py lines 1083-1128).
A vmid of 0 is falsy in Python, so it selects the node branch. -/
def get_firewall_status (api0 : Py ProxApi) (node : String) (vmid : Option ℤ) : PVal :=
  match api0 with
  | Except.error e => errDict e
  | Except.ok api =>
    pyTry (do
      let useVm := match vmid with
        | some n => n != 0
        | Option.none => false
      let options ← if useVm then
          api.qemu_fw_options (PVal.str node) (PVal.int (vmid.getD 0))
        else api.node_fw_options (PVal.str node)
      let rules ← if useVm then
          api.qemu_fw_rules (PVal.str node) (PVal.int (vmid.getD 0))
        else api.node_fw_rules (PVal.str node)
      let target := if useVm then "VM " ++ toString (vmid.getD 0) else "Node " ++ node
      let enable ← pyGet options "enable" (PVal.int 0)
      let policy_in ← pyGet options "policy_in" (PVal.str "ACCEPT")
      let policy_out ← pyGet options "policy_out" (PVal.str "ACCEPT")
      let log_level ← pyGet options "log_level_in" (PVal.str "nolog")
      let rulesL ← asList rules
      let rlist ← rulesL.foldlM (fun acc r => do
        let e ← fw_rule_entry r
        pure (acc ++ [e])) ([] : List PVal)
      pure (PVal.dict
        [("target", PVal.str target), ("enabled", enable), ("policy_in", policy_in),
         ("policy_out", policy_out), ("log_level", log_level), ("rules", PVal.list rlist)]))
      (fun e => errDict ("Failed to get firewall status: " ++ e))

/-- An opaque authenticated proxmoxer client handle. -/
structure ApiHandle where
  id : ℕ

/-- The two instance attributes backing the connection cache
(proxmoxweaver.py lines 28-29). -/
structure CacheState where
  api_cache : Option ApiHandle
  cache_time : Option ℤ

/-- Embedding of Tools._get_api (proxmoxweaver.py lines 33-64).  now is the
datetime.now() reading in seconds, create the outcome of the
proxmoxer.ProxmoxAPI constructor.  A handle object and a datetime are
always truthy once set.  On a constructor exception the method returns the
(None, message) tuple, modelled as the error case, and neither attribute
is written (the assignments on lines 52 and 59 are never reached). -/
def _get_api (st : CacheState) (ttl : ℤ) (now : ℤ) (create : Py ApiHandle) :
    Py ApiHandle × CacheState :=
  match st.api_cache, st.cache_time with
  | some h, some t =>
    if now - t < ttl then (Except.ok h, st)
    else
      match create with
      | Except.ok h2 => (Except.ok h2, ⟨some h2, some now⟩)
      | Except.error e => (Except.error ("API Connection Error: " ++ e), st)
  | _, _ =>
    match create with
    | Except.ok h2 => (Except.ok h2, ⟨some h2, some now⟩)
    | Except.error e => (Except.error ("API Connection Error: " ++ e), st)

/-- Whether a returned value is a mapping carrying the "error" key, or a
list containing such a mapping. -/
def hasErrorKey : PVal → Bool
  | PVal.dict kvs => kvs.any (fun p => p.1 == "error")
  | PVal.list xs => xs.any (fun x =>
      match x with
      | PVal.dict kvs => kvs.any (fun p => p.1 == "error")
      | _ => false)
  | _ => false

/-- The well-formedness a VM row needs for the basic entry builder to
succeed, stated directly as that success. -/
def vmBasicOk (node_name : PVal) (vm : PVal) : Bool :=
  (vm_entry_basic node_name vm).isOk

/-- A transport for a cluster where node n carries the VM rows vmss n and
per-VM status calls behave as stat dictates; everything else raises. -/
def clusterApi (names : List String) (vmss : String → List PVal)
    (stat : PVal → PVal → Py PVal) : ProxApi :=
  { allRaise "unused endpoint" with
    nodes_get := Except.ok (PVal.list (names.map (fun n => PVal.dict [("node", PVal.str n)])))
    node_qemu_get := fun nn =>
      match nn with
      | PVal.str n => Except.ok (PVal.list (vmss n))
      | _ => Except.error "unknown node"
    qemu_status_current := stat }

end ProxmoxWeaver

namespace Fixtures

open PyModel WeatherWeaver ProxmoxWeaver

/-- A geocoding success body for Louisville (coordinates chosen integral so
that every later computation is exact). -/
def geoBody : PVal :=
  PVal.dict [("results", PVal.list [PVal.dict
    [("latitude", PVal.int 38), ("longitude", PVal.int (-85)),
     ("timezone", PVal.str "America/Kentucky/Louisville")]])]

/-- A geocoder that always answers 200 with geoBody. -/
def geoOK : String → HttpResp := fun _ => HttpResp.resp 200 geoBody

/-- A current-weather success body with integer readings and no
precipitation. -/
def wxBody : PVal :=
  PVal.dict
    [("timezone_abbreviation", PVal.str "EST"),
     ("current_units", PVal.dict []),
     ("current", PVal.dict
       [("time", PVal.str "2025-01-15T14:30"),
        ("weather_code", PVal.int 3),
        ("temperature_2m", PVal.int 40),
        ("apparent_temperature", PVal.int 35),
        ("relative_humidity_2m", PVal.int 80),
        ("cloud_cover", PVal.int 100),
        ("pressure_msl", PVal.int 1013),
        ("wind_speed_10m", PVal.int 10),
        ("wind_gusts_10m", PVal.int 15)])]

/-- A forecast endpoint that always answers 200 with wxBody. -/
def wxOK : PVal → HttpResp := fun _ => HttpResp.resp 200 wxBody

/-- A forecast success body whose daily arrays are empty. -/
def forecastEmptyBody : PVal := PVal.dict [("daily", PVal.dict [("time", PVal.list [])])]

/-- A forecast endpoint that always answers 200 with empty daily arrays. -/
def forecastOK : PVal → HttpResp := fun _ => HttpResp.resp 200 forecastEmptyBody

/-- One well-formed VM row as the qemu listing returns it. -/
def vmRow : PVal := PVal.dict [("vmid", PVal.int 100), ("status", PVal.str "running")]

/-- A two-node cluster carrying one VM per node whose status sub-calls fail. -/
def c6Api : ProxApi :=
  clusterApi ["n1", "n2"] (fun _ => [vmRow]) (fun _ _ => Except.error "status unavailable")

/-- A one-node cluster with no VMs at all. -/
def c6EmptyApi : ProxApi :=
  clusterApi ["n1"] (fun _ => []) (fun _ _ => Except.error "status unavailable")

end Fixtures

namespace PyModel

theorem qfloor_eq_floor (q : ℚ) : qfloor q = ⌊q⌋ := Rat.floor_def.symm

theorem roundHalfEven_eq_of_fract_lt {q : ℚ} (h : q - ⌊q⌋ < 1/2) : roundHalfEven q = ⌊q⌋ := by
  unfold roundHalfEven
  rw [qfloor_eq_floor, if_pos h]

theorem roundHalfEven_eq_of_fract_gt {q : ℚ} (h : 1/2 < q - ⌊q⌋) : roundHalfEven q = ⌊q⌋ + 1 := by
  unfold roundHalfEven
  rw [qfloor_eq_floor, if_neg (by linarith), if_pos (by linarith)]

theorem roundHalfEven_eq_of_fract_eq {q : ℚ} (h : q - ⌊q⌋ = 1/2) :
    roundHalfEven q = (if ⌊q⌋ % 2 = 0 then ⌊q⌋ else ⌊q⌋ + 1) := by
  unfold roundHalfEven
  rw [qfloor_eq_floor, if_neg (by rw [h]; norm_num), if_neg (by rw [h]; norm_num)]

theorem floor_le_roundHalfEven (q : ℚ) : ⌊q⌋ ≤ roundHalfEven q := by
  rcases lt_trichotomy (q - ⌊q⌋) (1/2) with h | h | h
  · rw [roundHalfEven_eq_of_fract_lt h]
  · rw [roundHalfEven_eq_of_fract_eq h]
    split <;> omega
  · rw [roundHalfEven_eq_of_fract_gt h]; omega

theorem roundHalfEven_le_floor_add_one (q : ℚ) : roundHalfEven q ≤ ⌊q⌋ + 1 := by
  rcases lt_trichotomy (q - ⌊q⌋) (1/2) with h | h | h
  · rw [roundHalfEven_eq_of_fract_lt h]; omega
  · rw [roundHalfEven_eq_of_fract_eq h]
    split <;> omega
  · rw [roundHalfEven_eq_of_fract_gt h]

theorem roundHalfEven_mono {a b : ℚ} (hab : a ≤ b) : roundHalfEven a ≤ roundHalfEven b := by
  rcases lt_or_le ⌊a⌋ ⌊b⌋ with hf | hf
  · calc roundHalfEven a ≤ ⌊a⌋ + 1 := roundHalfEven_le_floor_add_one a
      _ ≤ ⌊b⌋ := by omega
      _ ≤ roundHalfEven b := floor_le_roundHalfEven b
  · have hfe : ⌊a⌋ = ⌊b⌋ := le_antisymm (Int.floor_mono hab) hf
    have hfr : a - ⌊a⌋ ≤ b - ⌊b⌋ := by rw [← hfe]; linarith
    rcases lt_trichotomy (a - ⌊a⌋) (1/2) with h | h | h
    · rw [roundHalfEven_eq_of_fract_lt h, hfe]
      exact floor_le_roundHalfEven b
    · rcases lt_trichotomy (b - ⌊b⌋) (1/2) with h2 | h2 | h2
      · linarith
      · rw [roundHalfEven_eq_of_fract_eq h, roundHalfEven_eq_of_fract_eq h2, hfe]
      · rw [roundHalfEven_eq_of_fract_gt h2, ← hfe]
        calc roundHalfEven a ≤ ⌊a⌋ + 1 := roundHalfEven_le_floor_add_one a
          _ = ⌊a⌋ + 1 := rfl
    · rw [roundHalfEven_eq_of_fract_gt h]
      have h2 : 1/2 < b - ⌊b⌋ := by linarith
      rw [roundHalfEven_eq_of_fract_gt h2]
      omega

theorem roundHalfEven_intCast (n : ℤ) : roundHalfEven (n : ℚ) = n := by
  unfold roundHalfEven
  rw [qfloor_eq_floor, Int.floor_intCast]
  simp only [sub_self]
  norm_num

theorem roundHalfEven_natCast (n : ℕ) : roundHalfEven (n : ℚ) = n := by
  have : ((n : ℤ) : ℚ) = (n : ℚ) := by push_cast; ring
  rw [← this, roundHalfEven_intCast]

theorem fmtFix2_natCast (n : ℕ) : fmtFix2 (n : ℤ) = toString (n / 100) ++ "." ++ pad2 (n % 100) := by
  unfold fmtFix2
  rw [if_neg (not_lt.mpr (Int.natCast_nonneg _)), Int.natAbs_ofNat]
  simp

theorem format2_natCast (n : ℕ) : format2 (n : ℚ) = toString n ++ ".00" := by
  unfold format2
  have h : (n : ℚ) * 100 = ((100 * n : ℕ) : ℚ) := by push_cast; ring
  rw [h, roundHalfEven_natCast, fmtFix2_natCast]
  have h4 : 100 * n / 100 = n := by omega
  have h5 : 100 * n % 100 = 0 := by omega
  rw [h4, h5]
  exact String.append_assoc _ "." "00"

end PyModel

namespace ProxmoxWeaver

open PyModel

theorem format_bytes_gb (b : ℕ) (h1 : 2^30 ≤ b) (h2 : b < 2^40) :
    _format_bytes (b : ℚ) = format2 ((b : ℚ) / 2^30) ++ " GB" := by
  have hb1 : ¬ ((b : ℚ) < 1024) := by
    rw [not_lt]
    exact_mod_cast le_trans (by norm_num : (1024 : ℕ) ≤ 2^30) h1
  have hb2 : ¬ ((b : ℚ) / 1024 < 1024) := by
    rw [not_lt, le_div_iff (by norm_num : (0:ℚ) < 1024)]
    exact_mod_cast le_trans (by norm_num : (1024 * 1024 : ℕ) ≤ 2^30) h1
  have hb3 : ¬ ((b : ℚ) / 1024 / 1024 < 1024) := by
    rw [not_lt, div_div, le_div_iff (by norm_num : (0:ℚ) < 1024 * 1024)]
    exact_mod_cast le_trans (by norm_num : (1024 * (1024 * 1024) : ℕ) ≤ 2^30) h1
  have hb4 : (b : ℚ) / 1024 / 1024 / 1024 < 1024 := by
    rw [div_div, div_div, div_lt_iff (by norm_num : (0:ℚ) < 1024 * (1024 * 1024))]
    exact_mod_cast lt_of_lt_of_le h2 (by norm_num : (2^40 : ℕ) ≤ 1024 * (1024 * (1024 * 1024)))
  have heq : (b : ℚ) / 1024 / 1024 / 1024 = (b : ℚ) / 2^30 := by
    rw [div_div, div_div]; norm_num
  unfold _format_bytes
  simp only [fb_loop]
  rw [if_neg hb1, if_neg hb2, if_neg hb3, if_pos hb4, heq]
  exact String.append_assoc _ " " "GB"

theorem ebind_ok {α β : Type} (a : α) (f : α → Py β) :
    (Except.ok a : Py α) >>= f = f a := rfl

theorem ebind_err {α β : Type} (e : String) (f : α → Py β) :
    (Except.error e : Py α) >>= f = Except.error e := rfl

theorem epure {α : Type} (a : α) : (pure a : Py α) = Except.ok a := rfl

theorem emap_ok {α β : Type} (f : α → β) (a : α) :
    f <$> (Except.ok a : Py α) = Except.ok (f a) := rfl

theorem process_vm_ok (api : ProxApi) (nn : PVal) (acc : List PVal) (vm : PVal)
    (h : vmBasicOk nn vm = true) :
    ∃ e, process_vm api nn acc vm = Except.ok (acc ++ [e]) := by
  unfold process_vm
  cases hd : vm_detailed_attempt api nn vm with
  | ok info => exact ⟨info, rfl⟩
  | error e =>
    unfold vmBasicOk at h
    cases hb : vm_entry_basic nn vm with
    | ok info => exact ⟨info, rfl⟩
    | error e2 => rw [hb] at h; simp [Except.isOk, Except.toBool] at h

theorem foldlM_process_vm (api : ProxApi) (nn : PVal) (vms : List PVal)
    (h : ∀ vm ∈ vms, vmBasicOk nn vm = true) (acc : List PVal) :
    ∃ l, vms.foldlM (process_vm api nn) acc = Except.ok (acc ++ l) ∧
      l.length = vms.length := by
  induction vms generalizing acc with
  | nil => exact ⟨[], by simp [List.foldlM, epure], rfl⟩
  | cons vm rest ih =>
    obtain ⟨e, he⟩ := process_vm_ok api nn acc vm (h vm (by simp))
    obtain ⟨l, hl, hlen⟩ := ih (fun v hv => h v (by simp [hv])) (acc ++ [e])
    refine ⟨e :: l, ?_, by simp [hlen]⟩
    simp only [List.foldlM, he, ebind_ok]
    rw [hl]
    simp

theorem process_node_ok (api : ProxApi) (n : String) (vms : List PVal)
    (hq : api.node_qemu_get (PVal.str n) = Except.ok (PVal.list vms))
    (hwf : ∀ vm ∈ vms, vmBasicOk (PVal.str n) vm = true) (acc : List PVal) :
    ∃ l, process_node api acc (PVal.dict [("node", PVal.str n)]) = Except.ok (acc ++ l) ∧
      l.length = vms.length := by
  obtain ⟨l, hl, hlen⟩ := foldlM_process_vm api (PVal.str n) vms hwf acc
  refine ⟨l, ?_, hlen⟩
  unfold process_node
  simp [pyIdx, lookupKV, hq, asList, hl, ebind_ok]

/-- C6: for a transport where each node reports a list of well-formed VM
rows, list_all_vms returns one entry per VM: the length of the returned
list equals the sum over nodes of the per-node VM counts — provided at
least one VM exists (an empty cluster instead yields the single
informational message entry, see the counterexample). -/
theorem c6_vm_count_amended (api : ProxApi) (names : List String) (vmss : String → List PVal)
    (hn : api.nodes_get =
      Except.ok (PVal.list (names.map (fun n => PVal.dict [("node", PVal.str n)]))))
    (hq : ∀ n, api.node_qemu_get (PVal.str n) = Except.ok (PVal.list (vmss n)))
    (hwf : ∀ n, ∀ vm ∈ vmss n, vmBasicOk (PVal.str n) vm = true)
    (hpos : 0 < (names.map (fun n => (vmss n).length)).sum) :
    ∃ l, list_all_vms (Except.ok api) = PVal.list l ∧
      l.length = (names.map (fun n => (vmss n).length)).sum := by
  have main : ∀ (ns : List String) (acc : List PVal),
      ∃ l, (ns.map (fun n => PVal.dict [("node", PVal.str n)])).foldlM (process_node api) acc =
        Except.ok (acc ++ l) ∧ l.length = (ns.map (fun n => (vmss n).length)).sum := by
    intro ns
    induction ns with
    | nil => intro acc; exact ⟨[], by simp [List.foldlM, epure], by simp⟩
    | cons n rest ih =>
      intro acc
      obtain ⟨l1, hl1, hlen1⟩ := process_node_ok api n (vmss n) (hq n) (hwf n) acc
      obtain ⟨l2, hl2, hlen2⟩ := ih (acc ++ l1)
      refine ⟨l1 ++ l2, ?_, ?_⟩
      · simp only [List.map_cons, List.foldlM, hl1, ebind_ok]
        rw [hl2]
        simp
      · simp [hlen1, hlen2]
  obtain ⟨l, hl, hlen⟩ := main names []
  have hne : l.isEmpty = false := by
    cases l with
    | nil => simp at hlen; omega
    | cons a as => rfl
  refine ⟨l, ?_, hlen⟩
  rw [List.nil_append] at hl
  simp only [list_all_vms]
  rw [hn]
  simp only [asList, ebind_ok]
  rw [hl]
  simp only [ebind_ok, epure]
  simp [pyTry, hne]

/-- C6 witness: the two-node fixture with one VM per node yields a
two-entry list. -/
theorem c6_witness :
    ∃ l, list_all_vms (Except.ok Fixtures.c6Api) = PVal.list l ∧ l.length = 2 := by
  obtain ⟨l, hl, hlen⟩ :=
    c6_vm_count_amended Fixtures.c6Api ["n1", "n2"] (fun _ => [Fixtures.vmRow]) rfl
      (fun _ => rfl)
      (fun n vm hv => by
        cases hv with
        | head => rfl
        | tail _ h => cases h)
      (by decide)
  exact ⟨l, hl, by simpa using hlen⟩

/-- C6 counterexample: with one node and zero VMs the method does not
return an empty list (count 0) but the single informational message entry
(count 1). -/
theorem c6_counterexample :
    list_all_vms (Except.ok Fixtures.c6EmptyApi) =
      PVal.list [PVal.dict [("message", PVal.str "No VMs found in cluster")]] ∧
    ((["n1"] : List String).map (fun _ => ([] : List PVal).length)).sum = 0 :=
  ⟨rfl, rfl⟩

end ProxmoxWeaver

open PyModel ProxmoxWeaver

/-- C1 (amended): when the transport fails — the connection accessor hands
back its (None, message) tuple, or every endpoint call raises — every
Proxmox façade method returns a mapping or list carrying the key "error";
the weather tool instead converts a failed weather-data fetch to a plain
error string, and a transport exception raised during geocoding propagates
out of the weather methods uncaught. -/
theorem c1_error_envelope_amended (msg host user node storageId : String)
    (vmid limit maxLines : ℤ) (env : PyEnv)
    (wv : WeatherWeaver.Valves) (wuv : WeatherWeaver.UserValves)
    (wwx : PVal → WeatherWeaver.HttpResp) (days : ℤ) :
    (hasErrorKey (list_all_vms (Except.error msg)) = true ∧
     hasErrorKey (list_all_containers (Except.error msg)) = true ∧
     hasErrorKey (get_vm_details (Except.error msg) node vmid) = true ∧
     hasErrorKey (get_container_details (Except.error msg) node vmid) = true ∧
     hasErrorKey (get_cluster_status (Except.error msg)) = true ∧
     hasErrorKey (get_node_status (Except.error msg) (some "n1")) = true ∧
     hasErrorKey (get_node_status (Except.error msg) Option.none) = true ∧
     hasErrorKey (list_storage_pools (Except.error msg)) = true ∧
     hasErrorKey (get_storage_details (Except.error msg) storageId) = true ∧
     hasErrorKey (get_node_storage (Except.error msg) node) = true ∧
     hasErrorKey (get_nfs_storages (Except.error msg)) = true ∧
     hasErrorKey (list_backups (Except.error msg) env (some "local") (some "n1")) = true ∧
     hasErrorKey (list_backups (Except.error msg) env Option.none Option.none) = true ∧
     hasErrorKey (list_recent_tasks (Except.error msg) env (some "n1") limit) = true ∧
     hasErrorKey (list_recent_tasks (Except.error msg) env Option.none limit) = true ∧
     hasErrorKey (get_cluster_log (Except.error msg) env maxLines) = true ∧
     hasErrorKey (list_snapshots (Except.error msg) env node vmid "qemu") = true ∧
     hasErrorKey (list_snapshots (Except.error msg) env node vmid "lxc") = true ∧
     hasErrorKey (list_templates (Except.error msg)) = true ∧
     hasErrorKey (list_users (Except.error msg) env) = true ∧
     hasErrorKey (list_groups (Except.error msg)) = true ∧
     hasErrorKey (list_roles (Except.error msg)) = true ∧
     hasErrorKey (get_vm_network (Except.error msg) node vmid "qemu") = true ∧
     hasErrorKey (get_vm_network (Except.error msg) node vmid "lxc") = true ∧
     hasErrorKey (get_firewall_status (Except.error msg) node (some 100)) = true ∧
     hasErrorKey (get_firewall_status (Except.error msg) node Option.none) = true ∧
     hasErrorKey (check_connection (Except.error msg) host user) = true ∧
     hasErrorKey (list_nodes (Except.error msg)) = true ∧
     hasErrorKey (list_vms (Except.error msg) node) = true ∧
     hasErrorKey (list_containers (Except.error msg) node) = true ∧
     hasErrorKey (get_vm_status (Except.error msg) node vmid) = true ∧
     hasErrorKey (get_container_status (Except.error msg) node vmid) = true) ∧
    (hasErrorKey (list_all_vms (Except.ok (allRaise msg))) = true ∧
     hasErrorKey (list_all_containers (Except.ok (allRaise msg))) = true ∧
     hasErrorKey (get_vm_details (Except.ok (allRaise msg)) node vmid) = true ∧
     hasErrorKey (get_container_details (Except.ok (allRaise msg)) node vmid) = true ∧
     hasErrorKey (get_cluster_status (Except.ok (allRaise msg))) = true ∧
     hasErrorKey (get_node_status (Except.ok (allRaise msg)) (some "n1")) = true ∧
     hasErrorKey (get_node_status (Except.ok (allRaise msg)) Option.none) = true ∧
     hasErrorKey (list_storage_pools (Except.ok (allRaise msg))) = true ∧
     hasErrorKey (get_storage_details (Except.ok (allRaise msg)) storageId) = true ∧
     hasErrorKey (get_node_storage (Except.ok (allRaise msg)) node) = true ∧
     hasErrorKey (get_nfs_storages (Except.ok (allRaise msg))) = true ∧
     hasErrorKey (list_backups (Except.ok (allRaise msg)) env (some "local") (some "n1")) = true ∧
     hasErrorKey (list_backups (Except.ok (allRaise msg)) env Option.none Option.none) = true ∧
     hasErrorKey (list_recent_tasks (Except.ok (allRaise msg)) env (some "n1") limit) = true ∧
     hasErrorKey (list_recent_tasks (Except.ok (allRaise msg)) env Option.none limit) = true ∧
     hasErrorKey (get_cluster_log (Except.ok (allRaise msg)) env maxLines) = true ∧
     hasErrorKey (list_snapshots (Except.ok (allRaise msg)) env node vmid "qemu") = true ∧
     hasErrorKey (list_snapshots (Except.ok (allRaise msg)) env node vmid "lxc") = true ∧
     hasErrorKey (list_templates (Except.ok (allRaise msg))) = true ∧
     hasErrorKey (list_users (Except.ok (allRaise msg)) env) = true ∧
     hasErrorKey (list_groups (Except.ok (allRaise msg))) = true ∧
     hasErrorKey (list_roles (Except.ok (allRaise msg))) = true ∧
     hasErrorKey (get_vm_network (Except.ok (allRaise msg)) node vmid "qemu") = true ∧
     hasErrorKey (get_vm_network (Except.ok (allRaise msg)) node vmid "lxc") = true ∧
     hasErrorKey (get_firewall_status (Except.ok (allRaise msg)) node (some 100)) = true ∧
     hasErrorKey (get_firewall_status (Except.ok (allRaise msg)) node Option.none) = true ∧
     hasErrorKey (check_connection (Except.ok (allRaise msg)) host user) = true ∧
     hasErrorKey (list_nodes (Except.ok (allRaise msg))) = true ∧
     hasErrorKey (list_vms (Except.ok (allRaise msg)) node) = true ∧
     hasErrorKey (list_containers (Except.ok (allRaise msg)) node) = true ∧
     hasErrorKey (get_vm_status (Except.ok (allRaise msg)) node vmid) = true ∧
     hasErrorKey (get_container_status (Except.ok (allRaise msg)) node vmid) = true) ∧
    (WeatherWeaver.fetch_weather_data (WeatherWeaver.HttpResp.raised msg) =
       Except.ok (WeatherWeaver.WFetch.errStr ("Error fetching weather data: " ++ msg)) ∧
     (WeatherWeaver.get_current_weather wv wuv (fun _ => WeatherWeaver.HttpResp.raised msg)
        wwx (some "Paris")).1 = Except.error msg ∧
     (WeatherWeaver.get_weather_forecast wv wuv (fun _ => WeatherWeaver.HttpResp.raised msg)
        wwx (some "Paris") days).1 = Except.error msg) := by
  (repeat' apply And.intro) <;> rfl

/-- C1 counterexample: with an unreachable host the weather façade raises
(the geocoding exception propagates), and a failed weather-data fetch is
returned as a plain string, not a mapping with key "error" — the claim's
universal error-mapping shape does not hold for the weather tool. -/
theorem c1_counterexample :
    (WeatherWeaver.get_current_weather WeatherWeaver.defaultValves
       WeatherWeaver.defaultUserValves
       (fun _ => WeatherWeaver.HttpResp.raised "connection refused")
       (fun _ => WeatherWeaver.HttpResp.raised "connection refused")
       (some "Louisville")).1 = Except.error "connection refused" ∧
    (WeatherWeaver.get_current_weather WeatherWeaver.defaultValves
       WeatherWeaver.defaultUserValves Fixtures.geoOK
       (fun _ => WeatherWeaver.HttpResp.raised "connection refused") Option.none).1 =
      Except.ok "Error fetching weather data: connection refused" :=
  ⟨rfl, rfl⟩

/-- C2 (amended): _format_bytes is a multi-unit formatter; on the GB range
2^30 ≤ b < 2^40 it renders exactly b/2^30 with two decimals and the GB
suffix, and there the rendered hundredths value is monotone in b. -/
theorem c2_format_bytes_amended (b1 b2 : ℕ) (h1 : 2^30 ≤ b1) (h12 : b1 ≤ b2)
    (h2 : b2 < 2^40) :
    _format_bytes (b1 : ℚ) = format2 ((b1 : ℚ) / 2^30) ++ " GB" ∧
    _format_bytes (b2 : ℚ) = format2 ((b2 : ℚ) / 2^30) ++ " GB" ∧
    roundHalfEven ((b1 : ℚ) / 2^30 * 100) ≤ roundHalfEven ((b2 : ℚ) / 2^30 * 100) := by
  refine ⟨format_bytes_gb b1 h1 (by omega), format_bytes_gb b2 (le_trans h1 h12) h2, ?_⟩
  apply roundHalfEven_mono
  have hc : (b1 : ℚ) ≤ (b2 : ℚ) := by exact_mod_cast h12
  gcongr

/-- C2 witness at the GB boundary and its double. -/
theorem c2_witness :
    _format_bytes ((2^30 : ℕ) : ℚ) = format2 (((2^30 : ℕ) : ℚ) / 2^30) ++ " GB" ∧
    _format_bytes ((2^31 : ℕ) : ℚ) = format2 (((2^31 : ℕ) : ℚ) / 2^30) ++ " GB" ∧
    roundHalfEven (((2^30 : ℕ) : ℚ) / 2^30 * 100) ≤
      roundHalfEven (((2^31 : ℕ) : ℚ) / 2^30 * 100) :=
  c2_format_bytes_amended (2^30) (2^31) (by norm_num) (by norm_num) (by norm_num)

/-- C2 counterexample: the helper does not return round(b/1024^3, 2) — at
b = 1 it renders "1.00 B" while the claimed value is 0.00 (which would
render "0.00 GB"); and across the unit boundary 1023 to 1024 the rendered
number drops from 1023.00 to 1.00. -/
theorem c2_counterexample :
    _format_bytes 1 = "1.00 B" ∧
    _format_bytes 1 ≠ format2 ((1 : ℚ) / 2^30) ++ " GB" ∧
    _format_bytes 1023 = "1023.00 B" ∧
    _format_bytes 1024 = "1.00 KB" := by
  have e1 : _format_bytes 1 = "1.00 B" := by
    unfold _format_bytes fb_loop
    rw [if_pos (by norm_num : (1 : ℚ) < 1024)]
    rw [show (1 : ℚ) = ((1 : ℕ) : ℚ) by norm_num, format2_natCast]
    rfl
  have e2 : format2 ((1 : ℚ) / 2^30) = "0.00" := by
    unfold format2
    rw [show (1 : ℚ) / 2^30 * 100 = (100 : ℚ) / 2^30 by ring]
    rw [roundHalfEven_eq_of_fract_lt (q := (100 : ℚ) / 2^30) ?_]
    · rw [show ⌊(100 : ℚ)/2^30⌋ = 0 by rw [Int.floor_eq_zero_iff]; constructor <;> norm_num]
      rfl
    · rw [show ⌊(100 : ℚ)/2^30⌋ = 0 by rw [Int.floor_eq_zero_iff]; constructor <;> norm_num]
      norm_num
  refine ⟨e1, ?_, ?_, ?_⟩
  · rw [e1, e2]; decide
  · unfold _format_bytes fb_loop
    rw [if_pos (by norm_num : (1023 : ℚ) < 1024)]
    rw [show (1023 : ℚ) = ((1023 : ℕ) : ℚ) by norm_num, format2_natCast]
    rfl
  · unfold _format_bytes
    simp only [fb_loop]
    rw [if_neg (by norm_num : ¬ (1024 : ℚ) < 1024)]
    rw [if_pos (by norm_num : (1024 : ℚ) / 1024 < 1024)]
    rw [show (1024 : ℚ) / 1024 = ((1 : ℕ) : ℚ) by norm_num, format2_natCast]
    rfl

/-- C3 (amended): _calculate_percentage returns 0 when total = 0 for any
used, and otherwise the exact unrounded used/total*100 (here stated
multiplied out); the one-decimal rounding the claim mentions happens only
in the callers' format strings. -/
theorem c3_percentage_amended (used total : ℚ) :
    (total = 0 → _calculate_percentage used total = 0) ∧
    (total ≠ 0 → _calculate_percentage used total * total = used * 100) := by
  constructor
  · intro h; simp [_calculate_percentage, h]
  · intro h
    unfold _calculate_percentage
    rw [if_neg h]
    field_simp

/-- C3 witness at (1, 0) and (1, 3). -/
theorem c3_witness :
    _calculate_percentage 1 0 = 0 ∧ _calculate_percentage 1 3 * 3 = 1 * 100 :=
  ⟨(c3_percentage_amended 1 0).1 rfl, (c3_percentage_amended 1 3).2 (by norm_num)⟩

/-- C3 counterexample: at used = 1, total = 3 the helper returns the
unrounded 100/3, not the one-decimal 33.3 the claim states (whose
hundredths-free rounding is computed here). -/
theorem c3_counterexample :
    _calculate_percentage 1 3 = 100/3 ∧
    roundHalfEven (_calculate_percentage 1 3 * 10) = 333 ∧
    _calculate_percentage 1 3 ≠ 333/10 := by
  have hv : _calculate_percentage 1 3 = 100/3 := by
    unfold _calculate_percentage
    norm_num
  have hf : ⌊(1000 : ℚ)/3⌋ = 333 := by
    rw [show (1000 : ℚ)/3 = ((1000 : ℤ) : ℚ)/((3 : ℕ) : ℚ) by norm_num,
      Rat.floor_intCast_div_natCast]
    decide
  refine ⟨hv, ?_, ?_⟩
  · rw [hv, show (100 : ℚ)/3 * 10 = (1000 : ℚ)/3 by ring,
      roundHalfEven_eq_of_fract_lt (by rw [hf]; norm_num), hf]
  · rw [hv]; norm_num

/-- C9 (amended): the leading unit rendered by _format_uptime is the
largest unit with a nonzero value, or minutes when all components are
zero; once a leading unit is chosen, every smaller unit is rendered even
when zero (see the counterexample "5d 0h 3m"). -/
theorem c9_leading_unit_amended (s : ℤ) (_hs : 0 ≤ s) :
    (0 < Int.fdiv s 86400 →
      ∃ r, _format_uptime s = toString (Int.fdiv s 86400) ++ "d " ++ r) ∧
    (Int.fdiv s 86400 = 0 → 0 < Int.fdiv (Int.emod s 86400) 3600 →
      ∃ r, _format_uptime s = toString (Int.fdiv (Int.emod s 86400) 3600) ++ "h " ++ r) ∧
    (Int.fdiv s 86400 = 0 → Int.fdiv (Int.emod s 86400) 3600 = 0 →
      _format_uptime s = toString (Int.fdiv (Int.emod s 3600) 60) ++ "m") := by
  refine ⟨?_, ?_, ?_⟩
  · intro h
    refine ⟨toString (Int.fdiv (Int.emod s 86400) 3600) ++ "h " ++
      toString (Int.fdiv (Int.emod s 3600) 60) ++ "m", ?_⟩
    simp only [_format_uptime, gt_iff_lt, if_pos h]
    simp [String.append_assoc]
  · intro h0 h
    refine ⟨toString (Int.fdiv (Int.emod s 3600) 60) ++ "m", ?_⟩
    simp only [_format_uptime, gt_iff_lt, if_neg (by omega : ¬ 0 < Int.fdiv s 86400),
      if_pos h]
    simp [String.append_assoc]
  · intro h0 h1
    simp only [_format_uptime, gt_iff_lt, if_neg (by omega : ¬ 0 < Int.fdiv s 86400),
      if_neg (by omega : ¬ 0 < Int.fdiv (Int.emod s 86400) 3600)]

/-- C9 witness at one day, one hour, one minute. -/
theorem c9_witness :
    ∃ r, _format_uptime 90061 = toString (Int.fdiv 90061 86400) ++ "d " ++ r :=
  (c9_leading_unit_amended 90061 (by decide)).1 (by decide)

/-- C9 counterexample: at 5 days and 3 minutes the formatter renders the
zero hours component between two nonzero ones, so read literally the claim
fails; only its leading-unit reading holds. -/
theorem c9_counterexample : _format_uptime 432180 = "5d 0h 3m" := by decide

/-- C7: the cached connection handle is reused exactly while
now - created < CACHE_TIMEOUT; otherwise, and when the cache is empty, a
new handle is created and stored with the fresh timestamp. -/
theorem c7_cache_invariant (st : CacheState) (ttl now : ℤ) (create : Py ApiHandle)
    (h : ApiHandle) (t : ℤ) (hc : st.api_cache = some h) (ht : st.cache_time = some t) :
    (now - t < ttl → _get_api st ttl now create = (Except.ok h, st)) ∧
    (ttl ≤ now - t → ∀ h2, create = Except.ok h2 →
      _get_api st ttl now create = (Except.ok h2, ⟨some h2, some now⟩)) ∧
    (∀ st2 : CacheState, st2.api_cache = Option.none → ∀ h2, create = Except.ok h2 →
      _get_api st2 ttl now create = (Except.ok h2, ⟨some h2, some now⟩)) := by
  obtain ⟨oc, ot⟩ := st
  simp only at hc ht
  subst hc; subst ht
  refine ⟨?_, ?_, ?_⟩
  · intro hf; simp [_get_api, hf]
  · intro hf h2 hcr
    simp [_get_api, hcr, not_lt.mpr hf]
  · intro st2 hn2 h2 hcr
    obtain ⟨oc2, ot2⟩ := st2
    simp only at hn2
    subst hn2
    cases ot2 <;> simp [_get_api, hcr]

/-- C7 witness: with TTL 60 and creation at 100, the handle is reused at
130 and replaced at 200 with the fresh timestamp. -/
theorem c7_witness :
    _get_api ⟨some ⟨1⟩, some 100⟩ 60 130 (Except.ok ⟨2⟩) =
      (Except.ok ⟨1⟩, ⟨some ⟨1⟩, some 100⟩) ∧
    _get_api ⟨some ⟨1⟩, some 100⟩ 60 200 (Except.ok ⟨2⟩) =
      (Except.ok ⟨2⟩, ⟨some ⟨2⟩, some 200⟩) :=
  ⟨(c7_cache_invariant ⟨some ⟨1⟩, some 100⟩ 60 130 (Except.ok ⟨2⟩) ⟨1⟩ 100 rfl rfl).1
      (by norm_num),
   (c7_cache_invariant ⟨some ⟨1⟩, some 100⟩ 60 200 (Except.ok ⟨2⟩) ⟨1⟩ 100 rfl rfl).2.1
      (by norm_num) ⟨2⟩ rfl⟩

/-- C8: all three time/date methods resolve the effective timezone with the
precedence explicit argument over user preference over configured default,
checked with all three set at once and with each stripped in turn. -/
theorem c8_timezone_precedence (a u d : String) (ha : a ≠ "") (hu : u ≠ "") :
    (TimeWeaver.get_current_time_zone ⟨some u⟩ ⟨d⟩ (some a) = a ∧
     TimeWeaver.get_current_time_zone ⟨some u⟩ ⟨d⟩ Option.none = u ∧
     TimeWeaver.get_current_time_zone ⟨Option.none⟩ ⟨d⟩ Option.none = d) ∧
    (TimeWeaver.get_current_date_zone ⟨some u⟩ ⟨d⟩ (some a) = a ∧
     TimeWeaver.get_current_date_zone ⟨some u⟩ ⟨d⟩ Option.none = u ∧
     TimeWeaver.get_current_date_zone ⟨Option.none⟩ ⟨d⟩ Option.none = d) ∧
    (TimeWeaver.get_current_datetime_zone ⟨some u⟩ ⟨d⟩ (some a) = a ∧
     TimeWeaver.get_current_datetime_zone ⟨some u⟩ ⟨d⟩ Option.none = u ∧
     TimeWeaver.get_current_datetime_zone ⟨Option.none⟩ ⟨d⟩ Option.none = d) := by
  refine ⟨⟨?_, ?_, ?_⟩, ⟨?_, ?_, ?_⟩, ⟨?_, ?_, ?_⟩⟩ <;>
    simp [TimeWeaver.get_current_time_zone, TimeWeaver.get_current_date_zone,
      TimeWeaver.get_current_datetime_zone, TimeWeaver._get_timezone, pyOrStr,
      optTruthy, ha, hu]

/-- C8 witness with three concrete nested overrides. -/
theorem c8_witness :
    (TimeWeaver.get_current_time_zone ⟨some "Asia/Tokyo"⟩ ⟨"UTC"⟩
       (some "America/New_York") = "America/New_York" ∧
     TimeWeaver.get_current_time_zone ⟨some "Asia/Tokyo"⟩ ⟨"UTC"⟩ Option.none = "Asia/Tokyo" ∧
     TimeWeaver.get_current_time_zone ⟨Option.none⟩ ⟨"UTC"⟩ Option.none = "UTC") ∧
    (TimeWeaver.get_current_date_zone ⟨some "Asia/Tokyo"⟩ ⟨"UTC"⟩
       (some "America/New_York") = "America/New_York" ∧
     TimeWeaver.get_current_date_zone ⟨some "Asia/Tokyo"⟩ ⟨"UTC"⟩ Option.none = "Asia/Tokyo" ∧
     TimeWeaver.get_current_date_zone ⟨Option.none⟩ ⟨"UTC"⟩ Option.none = "UTC") ∧
    (TimeWeaver.get_current_datetime_zone ⟨some "Asia/Tokyo"⟩ ⟨"UTC"⟩
       (some "America/New_York") = "America/New_York" ∧
     TimeWeaver.get_current_datetime_zone ⟨some "Asia/Tokyo"⟩ ⟨"UTC"⟩ Option.none = "Asia/Tokyo" ∧
     TimeWeaver.get_current_datetime_zone ⟨Option.none⟩ ⟨"UTC"⟩ Option.none = "UTC") :=
  c8_timezone_precedence "America/New_York" "Asia/Tokyo" "UTC" (by decide) (by decide)

/-- C4 (amended): a geocoding miss (200 with an empty result set) and a
non-200 geocoding status are reported to the caller with the same
"Could not find city" message — the two cases differ only in the line
printed to the server log — while a raised transport exception propagates
out of get_current_weather. -/
theorem c4_not_found_amended (v : WeatherWeaver.Valves) (uv : WeatherWeaver.UserValves)
    (wwx : PVal → WeatherWeaver.HttpResp) (city : String) (code : ℕ) (body : PVal)
    (hcity : city ≠ "") (hcode : (code == 200) = false) :
    (WeatherWeaver.get_current_weather v uv
        (fun _ => WeatherWeaver.HttpResp.resp code body) wwx (some city) =
      (Except.ok ("Could not find city: " ++ city),
       (WeatherWeaver._get_location uv v (some city)).2 ++
         ["Failed to retrieve data for city '" ++ city ++ "': " ++ toString code])) ∧
    (WeatherWeaver.get_current_weather v uv
        (fun _ => WeatherWeaver.HttpResp.resp 200 (PVal.dict [("results", PVal.list [])]))
        wwx (some city) =
      (Except.ok ("Could not find city: " ++ city),
       (WeatherWeaver._get_location uv v (some city)).2 ++
         ["City '" ++ city ++ "' not found"])) ∧
    (∀ msg, (WeatherWeaver.get_current_weather v uv
        (fun _ => WeatherWeaver.HttpResp.raised msg) wwx (some city)).1 =
      Except.error msg) := by
  have hloc : (WeatherWeaver._get_location uv v (some city)).1 = city := by
    simp [WeatherWeaver._get_location, optTruthy, hcity]
  have hgeo1 : WeatherWeaver.get_city_info (WeatherWeaver.HttpResp.resp code body) city =
      (Except.ok Option.none,
       ["Failed to retrieve data for city '" ++ city ++ "': " ++ toString code]) := by
    simp [WeatherWeaver.get_city_info, hcode]
  refine ⟨?_, ?_, ?_⟩
  · simp only [WeatherWeaver.get_current_weather]
    rw [hloc, if_neg hcity, hgeo1]
  · simp only [WeatherWeaver.get_current_weather]
    rw [hloc, if_neg hcity]
    rfl
  · intro msg
    simp only [WeatherWeaver.get_current_weather]
    rw [hloc, if_neg hcity]
    rfl

/-- C4 witness at city Louisville and status 500. -/
theorem c4_witness :
    WeatherWeaver.get_current_weather WeatherWeaver.defaultValves
      WeatherWeaver.defaultUserValves
      (fun _ => WeatherWeaver.HttpResp.resp 500 PVal.null) Fixtures.wxOK
      (some "Louisville") =
    (Except.ok ("Could not find city: " ++ "Louisville"),
     (WeatherWeaver._get_location WeatherWeaver.defaultUserValves
        WeatherWeaver.defaultValves (some "Louisville")).2 ++
       ["Failed to retrieve data for city '" ++ "Louisville" ++ "': " ++
         toString (500 : ℕ)]) :=
  (c4_not_found_amended WeatherWeaver.defaultValves WeatherWeaver.defaultUserValves
    Fixtures.wxOK "Louisville" 500 PVal.null (by decide) (by decide)).1

/-- C4 counterexample: the caller-visible report for a non-200 geocoding
status equals the report for a geocoding miss, so the two conditions are
not distinct to the caller; only the printed log lines differ. -/
theorem c4_counterexample :
    (WeatherWeaver.get_current_weather WeatherWeaver.defaultValves
        WeatherWeaver.defaultUserValves
        (fun _ => WeatherWeaver.HttpResp.resp 500 PVal.null) Fixtures.wxOK
        (some "Louisville")).1 = Except.ok "Could not find city: Louisville" ∧
    (WeatherWeaver.get_current_weather WeatherWeaver.defaultValves
        WeatherWeaver.defaultUserValves
        (fun _ => WeatherWeaver.HttpResp.resp 200 (PVal.dict [("results", PVal.list [])]))
        Fixtures.wxOK (some "Louisville")).1 = Except.ok "Could not find city: Louisville" ∧
    "Failed to retrieve data for city 'Louisville': 500" ≠
      "City 'Louisville' not found" :=
  ⟨rfl, rfl, by decide⟩

set_option maxRecDepth 40000 in
/-- C5: the claim is right about the intended override chain — _get_units
resolves metric for a metric user preference — but get_current_weather
ignores it: its request params hard-code fahrenheit/mph/inch and its report
renders °F, even with user_unit_system = "metric".  The valve descriptions
promise the override applies, so this is a code bug. -/
theorem c5_units_code_bug :
    (WeatherWeaver._get_units ⟨Option.none, some "metric"⟩
      WeatherWeaver.defaultValves).temperature_unit = "celsius" ∧
    (WeatherWeaver._get_units ⟨Option.none, some "metric"⟩
      WeatherWeaver.defaultValves).temp_symbol = "°C" ∧
    (∀ lat lng tz, pyIdx (WeatherWeaver.current_weather_params lat lng tz)
      "temperature_unit" = Except.ok (PVal.str "fahrenheit")) ∧
    (WeatherWeaver.get_current_weather WeatherWeaver.defaultValves
        ⟨Option.none, some "metric"⟩ Fixtures.geoOK Fixtures.wxOK Option.none).1 =
      Except.ok "Current weather for Louisville as of 02:30 PM EST:\n\n**Conditions:** Overcast\n**Temperature:** 40°F (Feels like 35°F)\n**Humidity:** 80%\n**Cloud Cover:** 100%\n**Pressure:** 1013 hPa\n**Wind:** 10 mph, gusts to 15 mph" ∧
    strIncludes "Current weather for Louisville as of 02:30 PM EST:\n\n**Conditions:** Overcast\n**Temperature:** 40°F (Feels like 35°F)\n**Humidity:** 80%\n**Cloud Cover:** 100%\n**Pressure:** 1013 hPa\n**Wind:** 10 mph, gusts to 15 mph" "°F" = true := by
  refine ⟨rfl, rfl, fun lat lng tz => rfl, rfl, ?_⟩
  decide

/-- C10: get_weather_forecast behaves, for every transport, exactly as if
called with max(1, min(16, days)); that clamp lies in [1, 16], is the
identity on in-range arguments, and the announced day count in the report
header is the clamped value (16 for an argument of 99, 1 for -5). -/
theorem c10_forecast_clamp (v : WeatherWeaver.Valves) (uv : WeatherWeaver.UserValves)
    (geo : String → WeatherWeaver.HttpResp) (wwx : PVal → WeatherWeaver.HttpResp)
    (city0 : Option String) (days : ℤ) :
    WeatherWeaver.get_weather_forecast v uv geo wwx city0 days =
      WeatherWeaver.get_weather_forecast v uv geo wwx city0 (max 1 (min 16 days)) ∧
    1 ≤ max 1 (min 16 days) ∧ max 1 (min 16 days) ≤ 16 ∧
    (1 ≤ days → days ≤ 16 → max 1 (min 16 days) = days) ∧
    (WeatherWeaver.get_weather_forecast WeatherWeaver.defaultValves
        WeatherWeaver.defaultUserValves Fixtures.geoOK Fixtures.forecastOK
        (some "Louisville") 99).1 =
      Except.ok "**16-Day Weather Forecast for Louisville**\n" ∧
    (WeatherWeaver.get_weather_forecast WeatherWeaver.defaultValves
        WeatherWeaver.defaultUserValves Fixtures.geoOK Fixtures.forecastOK
        (some "Louisville") (-5)).1 =
      Except.ok "**1-Day Weather Forecast for Louisville**\n" := by
  refine ⟨?_, by omega, by omega, fun h1 h2 => by omega, ?_, ?_⟩
  · have hidem : max 1 (min 16 (max 1 (min 16 days))) = max 1 (min 16 days) := by omega
    simp only [WeatherWeaver.get_weather_forecast]
    rw [hidem]
  · rfl
  · rfl

/-- C10 witness: in-range arguments pass through the clamp unchanged. -/
theorem c10_witness : max 1 (min 16 (7 : ℤ)) = 7 :=
  (c10_forecast_clamp WeatherWeaver.defaultValves WeatherWeaver.defaultUserValves
    Fixtures.geoOK Fixtures.forecastOK (some "Louisville") 7).2.2.2.1
    (by norm_num) (by norm_num)


